import Mathlib
namespace RCC

/-- 2 ^ 32, the modulus of a 32-bit register store. -/
def m32 : Nat := 2 ^ 32

/-- All 32 bits set, the value of `~0` on a `uint32_t`. -/
def mask32 : Nat := 2 ^ 32 - 1

/-- 32-bit bitwise complement, the meaning of C `~m` for a 32-bit mask. -/
def cNot (m : Nat) : Nat := mask32 ^^^ m

/-- The RCC register file (the fields of `RCC_RegDef_t` that the driver
touches). -/
structure Regs where
  cr : Nat
  pllcfgr : Nat
  cfgr : Nat
  ahb1enr : Nat
  ahb2enr : Nat
  ahb3enr : Nat
  apb1enr : Nat
  apb2enr : Nat
deriving Repr, DecidableEq

/-- The `STATUS_t` enumeration (ON / OFF). -/
inductive STATUS where
  | ON : STATUS
  | OFF : STATUS
deriving Repr, DecidableEq

/-- Modelled from the spec: `RCC_private.h`, which defines the `CLK_t`
enumeration, is not in src; spec §6 fixes bit 0 = internal-oscillator
enable, so HSI = 0. -/
def HSI : Nat := 0

/-- Modelled from the spec: `RCC_private.h` is not in src; spec §6 fixes
bit 16 = external-oscillator enable, so HSE = 16. -/
def HSE : Nat := 16

/-- Modelled from the spec: `RCC_private.h` is not in src; spec §6 fixes
bit 24 = PLL enable, so PLL = 24. -/
def PLL : Nat := 24

/-- Modelled from the spec: `RCC_private.h`, which defines `SYS_CLK_t`,
is not in src; spec §4.2 describes a four-value range 0–3 whose last
member is the guard bound, so SYSPLLP = 3. -/
def SYSPLLP : Nat := 3

/-- Modelled from the spec: `RCC_private.h`, which defines `HSE_t`, is
not in src; the two recognized states get distinct codes. -/
def BYPASSED : Nat := 0

/-- Modelled from the spec: second `HSE_t` state, distinct from
`BYPASSED`. -/
def NOT_BYPASSED : Nat := 1

/-- Fueled busy-wait: repeatedly test `cond` on the current register
state, letting the hardware oracle `hw` act between reads; `none` when
the condition did not hold within `fuel` reads. -/
def pollReg (hw : Regs → Regs) (cond : Regs → Bool) : Nat → Regs → Option Regs
  | 0, _ => none
  | fuel + 1, s => if cond s then some s else pollReg hw cond fuel (hw s)

/-- `RCC_SetClkStatus` (src/Src/RCC_prog.c lines 16–32): set or clear
bit `Clk_Type` of CR per `Status`, then busy-wait while bit
`Clk_Type + 1` of CR reads 0. -/
def RCC_SetClkStatus (hw : Regs → Regs) (fuel : Nat) (Clk_Type : Nat)
    (Status : STATUS) (s : Regs) : Option (Nat × Regs) :=
  let s1 : Regs :=
    if Status = STATUS.ON then { s with cr := (s.cr ||| (1 <<< Clk_Type)) % m32 }
    else { s with cr := s.cr &&& cNot ((1 <<< Clk_Type) % m32) }
  match pollReg hw (fun t => ((t.cr >>> (Clk_Type + 1)) &&& 1) == 1) fuel s1 with
  | none => none
  | some s2 => some (0, s2)

/-- `RCC_SetSysClk` (src/Src/RCC_prog.c lines 42–58): reject values
above `SYSPLLP`; otherwise clear CFGR bits 1:0, OR in the request, then
busy-wait until CFGR bits 3:2 equal the request. -/
def RCC_SetSysClk (hw : Regs → Regs) (fuel : Nat) (SYSClkType : Nat)
    (s : Regs) : Option (Nat × Regs) :=
  if SYSClkType > SYSPLLP then some (1, s)
  else
    let s1 : Regs := { s with cfgr := s.cfgr &&& cNot 3 }
    let s2 : Regs := { s1 with cfgr := (s1.cfgr ||| SYSClkType) % m32 }
    match pollReg hw (fun t => ((t.cfgr >>> 2) &&& 3) == SYSClkType) fuel s2 with
    | none => none
    | some s3 => some (0, s3)

/-- `RCC_HSE_Mode` (src/Src/RCC_prog.c lines 68–78): set CR bit 18 for
`BYPASSED`, clear it for `NOT_BYPASSED`, reject anything else. -/
def RCC_HSE_Mode (HSE_MODE : Nat) (s : Regs) : Nat × Regs :=
  if HSE_MODE == BYPASSED then
    (0, { s with cr := (s.cr ||| (1 <<< 18)) % m32 })
  else if HSE_MODE == NOT_BYPASSED then
    (0, { s with cr := s.cr &&& cNot (1 <<< 18) })
  else
    (1, s)

/-- The `switch (PLL_Division)` of `RCC_PLL_Config` (src/Src/RCC_prog.c
lines 122–137): write the PLLP code into PLLCFGR bits 17:16 for division
2, 4, 6 or 8; `none` is the `default` branch (invalid divider). -/
def pcodeStep (PLL_Division : Nat) (s : Regs) : Option Regs :=
  if PLL_Division = 2 then
    some { s with pllcfgr := s.pllcfgr &&& cNot (3 <<< 16) }
  else if PLL_Division = 4 then
    some { s with pllcfgr := ((s.pllcfgr &&& cNot (3 <<< 16)) ||| (1 <<< 16)) % m32 }
  else if PLL_Division = 6 then
    some { s with pllcfgr := ((s.pllcfgr &&& cNot (3 <<< 16)) ||| (2 <<< 16)) % m32 }
  else if PLL_Division = 8 then
    some { s with pllcfgr := ((s.pllcfgr &&& cNot (3 <<< 16)) ||| (3 <<< 16)) % m32 }
  else none

/-- Tail of `RCC_PLL_Config` after the source-select step
(src/Src/RCC_prog.c lines 103–143): validate N then M, clear and rewrite
the PLLM/PLLN fields, run the PLLP switch, enable the PLL and busy-wait
for the lock bit. -/
def pllAfterSrc (hw : Regs → Regs) (fuel : Nat)
    (PLL_Multiplexer PLL_Division : Nat) (s : Regs) : Option (Nat × Regs) :=
  if PLL_Multiplexer < 50 ∨ PLL_Multiplexer > 432 then some (1, s)
  else if PLL_Division < 2 ∨ PLL_Division > 63 then some (1, s)
  else
    let s1 : Regs := { s with pllcfgr := s.pllcfgr &&& cNot 63 }
    let s2 : Regs := { s1 with pllcfgr := s1.pllcfgr &&& cNot (511 <<< 6) }
    let s3 : Regs := { s2 with pllcfgr := (s2.pllcfgr ||| PLL_Division) % m32 }
    let s4 : Regs := { s3 with pllcfgr := (s3.pllcfgr ||| (PLL_Multiplexer <<< 6)) % m32 }
    match pcodeStep PLL_Division s4 with
    | none => some (1, s4)
    | some s5 =>
      let s6 : Regs := { s5 with cr := (s5.cr ||| (1 <<< 24)) % m32 }
      match pollReg hw (fun t => ((t.cr >>> 25) &&& 1) == 1) fuel s6 with
      | none => none
      | some s7 => some (0, s7)

/-- `RCC_PLL_Config` (src/Src/RCC_prog.c lines 89–144): disable the PLL
and busy-wait for lock-clear, select the PLL source (rejecting anything
but HSI/HSE), then run `pllAfterSrc`. -/
def RCC_PLL_Config (hw : Regs → Regs) (fuel : Nat)
    (PLL_Multiplexer PLL_Division Src : Nat) (s : Regs) : Option (Nat × Regs) :=
  let s1 : Regs := { s with cr := s.cr &&& cNot (1 <<< 24) }
  match pollReg hw (fun t => ((t.cr >>> 25) &&& 1) == 0) fuel s1 with
  | none => none
  | some s2 =>
    if Src = HSI then
      pllAfterSrc hw fuel PLL_Multiplexer PLL_Division
        { s2 with pllcfgr := s2.pllcfgr &&& cNot (1 <<< 22) }
    else if Src = HSE then
      pllAfterSrc hw fuel PLL_Multiplexer PLL_Division
        { s2 with pllcfgr := (s2.pllcfgr ||| (1 <<< 22)) % m32 }
    else
      some (1, s2)

/-- `RCC_AHB1_EnableClk` (src/Src/RCC_prog.c lines 152–159). -/
def RCC_AHB1_EnableClk (PeripheralName : Nat) (s : Regs) : Nat × Regs :=
  if PeripheralName > 31 then (1, s)
  else (0, { s with ahb1enr := (s.ahb1enr ||| (1 <<< PeripheralName)) % m32 })

/-- `RCC_AHB1_DisableClk` (src/Src/RCC_prog.c lines 167–174). -/
def RCC_AHB1_DisableClk (PeripheralName : Nat) (s : Regs) : Nat × Regs :=
  if PeripheralName > 31 then (1, s)
  else (0, { s with ahb1enr := s.ahb1enr &&& cNot ((1 <<< PeripheralName) % m32) })

/-- `RCC_AHB2_EnableClk` (src/Src/RCC_prog.c lines 182–189). -/
def RCC_AHB2_EnableClk (PeripheralName : Nat) (s : Regs) : Nat × Regs :=
  if PeripheralName > 31 then (1, s)
  else (0, { s with ahb2enr := (s.ahb2enr ||| (1 <<< PeripheralName)) % m32 })

/-- `RCC_AHB2_DisableClk` (src/Src/RCC_prog.c lines 197–204). -/
def RCC_AHB2_DisableClk (PeripheralName : Nat) (s : Regs) : Nat × Regs :=
  if PeripheralName > 31 then (1, s)
  else (0, { s with ahb2enr := s.ahb2enr &&& cNot ((1 <<< PeripheralName) % m32) })

/-- `RCC_AHB3_EnableClk` (src/Src/RCC_prog.c lines 212–219). -/
def RCC_AHB3_EnableClk (PeripheralName : Nat) (s : Regs) : Nat × Regs :=
  if PeripheralName > 31 then (1, s)
  else (0, { s with ahb3enr := (s.ahb3enr ||| (1 <<< PeripheralName)) % m32 })

/-- `RCC_AHB3_DisableClk` (src/Src/RCC_prog.c lines 227–234). -/
def RCC_AHB3_DisableClk (PeripheralName : Nat) (s : Regs) : Nat × Regs :=
  if PeripheralName > 31 then (1, s)
  else (0, { s with ahb3enr := s.ahb3enr &&& cNot ((1 <<< PeripheralName) % m32) })

/-- `RCC_APB1_EnableClk` (src/Src/RCC_prog.c lines 242–249). -/
def RCC_APB1_EnableClk (PeripheralName : Nat) (s : Regs) : Nat × Regs :=
  if PeripheralName > 31 then (1, s)
  else (0, { s with apb1enr := (s.apb1enr ||| (1 <<< PeripheralName)) % m32 })

/-- `RCC_APB1_DisableClk` (src/Src/RCC_prog.c lines 257–264). -/
def RCC_APB1_DisableClk (PeripheralName : Nat) (s : Regs) : Nat × Regs :=
  if PeripheralName > 31 then (1, s)
  else (0, { s with apb1enr := s.apb1enr &&& cNot ((1 <<< PeripheralName) % m32) })

/-- `RCC_APB2_EnableClk` (src/Src/RCC_prog.c lines 272–279). -/
def RCC_APB2_EnableClk (PeripheralName : Nat) (s : Regs) : Nat × Regs :=
  if PeripheralName > 31 then (1, s)
  else (0, { s with apb2enr := (s.apb2enr ||| (1 <<< PeripheralName)) % m32 })

/-- `RCC_APB2_DisableClk` (src/Src/RCC_prog.c lines 287–294). -/
def RCC_APB2_DisableClk (PeripheralName : Nat) (s : Regs) : Nat × Regs :=
  if PeripheralName > 31 then (1, s)
  else (0, { s with apb2enr := s.apb2enr &&& cNot ((1 <<< PeripheralName) % m32) })

/-- Responsive PLL hardware model: the lock/ready bit (CR bit 25) tracks
the enable bit (CR bit 24) after each poll read. -/
def hwPLL (s : Regs) : Regs :=
  { s with cr :=
      if ((s.cr >>> 24) &&& 1) == 1 then (s.cr ||| (1 <<< 25)) % m32
      else s.cr &&& cNot (1 <<< 25) }

/-- Responsive system-clock hardware model: the switched-status field
(CFGR bits 3:2) tracks the selector field (CFGR bits 1:0). -/
def hwSys (s : Regs) : Regs :=
  { s with cfgr := ((s.cfgr &&& cNot 12) ||| ((s.cfgr &&& 3) <<< 2)) % m32 }

/-- Minimal responsive oracle for a single ready bit: each hardware step
sets CR bit `b`. -/
def hwReady (b : Nat) (s : Regs) : Regs :=
  { s with cr := (s.cr ||| (1 <<< b)) % m32 }

/-- The output-divider encoding table of spec §4.4, {2→0, 4→1, 6→2,
8→3}. -/
def pcode : Nat → Nat
  | 4 => 1
  | 6 => 2
  | 8 => 3
  | _ => 0

/-- The all-zero register file, used as a concrete evaluation point. -/
def regs0 : Regs :=
  { cr := 0, pllcfgr := 0, cfgr := 0, ahb1enr := 0, ahb2enr := 0,
    ahb3enr := 0, apb1enr := 0, apb2enr := 0 }

/-- The PLL configuration register after the four M/N-field stores of
src/Src/RCC_prog.c lines 114-119 (clear M, clear N, OR in M, OR in N). -/
def pllWritten (D N : Nat) (s : Regs) : Regs :=
  { s with pllcfgr :=
      ((((s.pllcfgr &&& cNot 63) &&& cNot (511 <<< 6)) ||| D) % m32 ||| (N <<< 6)) % m32 }

/-- Register file with only CR populated, for concrete runs. -/
def regsCr (c : Nat) : Regs :=
  { cr := c, pllcfgr := 0, cfgr := 0, ahb1enr := 0, ahb2enr := 0,
    ahb3enr := 0, apb1enr := 0, apb2enr := 0 }

/-- Concrete state with the PLL enabled (CR bit 24) and a source bit set
in PLLCFGR (bit 22), used to exhibit the writes performed before the N
validation rejects. -/
def regsPllOn : Regs :=
  { cr := 16777216, pllcfgr := 4194304, cfgr := 0, ahb1enr := 0, ahb2enr := 0,
    ahb3enr := 0, apb1enr := 0, apb2enr := 0 }

/-- Concrete state with HSI enabled and ready (CR bits 0, 1) and AHB1
peripheral 3 already gated on, used for the idempotence run. -/
def regsIdem : Regs :=
  { cr := 3, pllcfgr := 0, cfgr := 0, ahb1enr := 8, ahb2enr := 0,
    ahb3enr := 0, apb1enr := 0, apb2enr := 0 }

/-- The register file after the concrete invalid-divider run (M/N
fields written as 5 and 50, PLL left disabled). -/
def regsC4 : Regs :=
  { cr := 0, pllcfgr := 3205, cfgr := 0, ahb1enr := 0, ahb2enr := 0,
    ahb3enr := 0, apb1enr := 0, apb2enr := 0 }

/-- The register file after the concrete successful PLL configuration
run from the all-zero state (CR bits 24 and 25 set, PLLCFGR holding
M = 2 and N = 50). -/
def regsC10 : Regs :=
  { cr := 50331648, pllcfgr := 3202, cfgr := 0, ahb1enr := 0, ahb2enr := 0,
    ahb3enr := 0, apb1enr := 0, apb2enr := 0 }

/-- The M field of the PLL configuration register, bits 5:0. -/
def pllM (x : Nat) : Nat := x &&& 63

/-- The N field of the PLL configuration register, bits 14:6. -/
def pllN (x : Nat) : Nat := (x >>> 6) &&& 511

/-- The P code of the PLL configuration register, bits 17:16. -/
def pllP (x : Nat) : Nat := (x >>> 16) &&& 3

/-- The source-select bit of the PLL configuration register, bit 22. -/
def pllSrc (x : Nat) : Nat := (x >>> 22) &&& 1

/-- The system-clock selector field, CFGR bits 1:0. -/
def sysSel (x : Nat) : Nat := x &&& 3

/-- The system-clock confirmation field, CFGR bits 3:2. -/
def sysConf (x : Nat) : Nat := (x >>> 2) &&& 3

/-- A hardware oracle that only ever touches bit `b` of CR: every other
CR bit and every other register is left unchanged by each hardware
step. -/
def HWCrOnly (b : Nat) (hw : Regs → Regs) : Prop :=
  ∀ t : Regs, (hw t).pllcfgr = t.pllcfgr ∧ (hw t).cfgr = t.cfgr ∧
    (hw t).ahb1enr = t.ahb1enr ∧ (hw t).ahb2enr = t.ahb2enr ∧
    (hw t).ahb3enr = t.ahb3enr ∧ (hw t).apb1enr = t.apb1enr ∧
    (hw t).apb2enr = t.apb2enr ∧
    ∀ i : Nat, i < 32 → i ≠ b → Nat.testBit (hw t).cr i = Nat.testBit t.cr i

/-- A hardware oracle that only ever touches bits 3:2 of CFGR. -/
def HWCfgrSWS (hw : Regs → Regs) : Prop :=
  ∀ t : Regs, (hw t).cr = t.cr ∧ (hw t).pllcfgr = t.pllcfgr ∧
    (hw t).ahb1enr = t.ahb1enr ∧ (hw t).ahb2enr = t.ahb2enr ∧
    (hw t).ahb3enr = t.ahb3enr ∧ (hw t).apb1enr = t.apb1enr ∧
    (hw t).apb2enr = t.apb2enr ∧
    ∀ i : Nat, i < 32 → i ≠ 2 → i ≠ 3 → Nat.testBit (hw t).cfgr i = Nat.testBit t.cfgr i


lemma t63 (i : Nat) : Nat.testBit 63 i = decide (i < 6) := by
  have h : (63 : Nat) = 2 ^ 6 - 1 := rfl
  rw [h, Nat.testBit_two_pow_sub_one]

lemma t511 (i : Nat) : Nat.testBit 511 i = decide (i < 9) := by
  have h : (511 : Nat) = 2 ^ 9 - 1 := rfl
  rw [h, Nat.testBit_two_pow_sub_one]

lemma t3 (i : Nat) : Nat.testBit 3 i = decide (i < 2) := by
  have h : (3 : Nat) = 2 ^ 2 - 1 := rfl
  rw [h, Nat.testBit_two_pow_sub_one]

lemma t1 (i : Nat) : Nat.testBit 1 i = decide (i = 0) := by
  have h : (1 : Nat) = 2 ^ 1 - 1 := rfl
  rw [h, Nat.testBit_two_pow_sub_one]
  simp [Nat.lt_one_iff]

lemma tmask32 (i : Nat) : Nat.testBit mask32 i = decide (i < 32) := by
  rw [mask32, Nat.testBit_two_pow_sub_one]

lemma testBit_cNot (m i : Nat) :
    (cNot m).testBit i = (decide (i < 32) ^^ m.testBit i) := by
  rw [cNot, Nat.testBit_xor, tmask32]

lemma testBit_mod32 (x i : Nat) :
    (x % m32).testBit i = (decide (i < 32) && x.testBit i) := by
  rw [m32, Nat.testBit_mod_two_pow]

lemma testBit_shift_one (k i : Nat) :
    ((1 : Nat) <<< k).testBit i = decide (i = k) := by
  rw [Nat.testBit_shiftLeft, t1]
  rcases Nat.lt_or_ge i k with h | h
  · simp [Nat.not_le.mpr h]
    omega
  · simp [h]
    omega

lemma shift_one_mod32 {k : Nat} (hk : k < 32) : ((1 : Nat) <<< k) % m32 = 1 <<< k := by
  apply Nat.mod_eq_of_lt
  rw [Nat.shiftLeft_eq, one_mul, m32]
  exact Nat.pow_lt_pow_right (by norm_num) hk

lemma testBit_setBit (x k i : Nat) :
    ((x ||| (1 <<< k)) % m32).testBit i =
      (decide (i < 32) && (x.testBit i || decide (i = k))) := by
  rw [testBit_mod32, Nat.testBit_lor, testBit_shift_one]

lemma testBit_clearBit (x k i : Nat) (hk : k < 32) :
    (x &&& cNot (1 <<< k)).testBit i =
      (decide (i < 32) && decide (i ≠ k) && x.testBit i) := by
  rw [Nat.testBit_land, testBit_cNot, testBit_shift_one]
  cases h : x.testBit i <;> by_cases h32 : i < 32 <;> by_cases hik : i = k <;>
    simp [h, h32, hik] <;> omega

lemma testBit_clearBit' (x k i : Nat) (hk : k < 32) :
    (x &&& cNot ((1 <<< k) % m32)).testBit i =
      (decide (i < 32) && decide (i ≠ k) && x.testBit i) := by
  rw [shift_one_mod32 hk, testBit_clearBit _ _ _ hk]


lemma beq1_testBit (z k : Nat) : (((z >>> k) &&& 1) == 1) = z.testBit k := by
  unfold Nat.testBit
  rw [Nat.land_comm]
  rcases Nat.mod_two_eq_zero_or_one (z >>> k) with h | h <;>
    rw [Nat.one_and_eq_mod_two, h] <;> rfl

lemma beq0_testBit (z k : Nat) : (((z >>> k) &&& 1) == 0) = !z.testBit k := by
  unfold Nat.testBit
  rw [Nat.land_comm]
  rcases Nat.mod_two_eq_zero_or_one (z >>> k) with h | h <;>
    rw [Nat.one_and_eq_mod_two, h] <;> rfl

lemma pollReg_exit_now {hw : Regs → Regs} {cond : Regs → Bool} {fuel : Nat}
    {s : Regs} (hc : cond s = true) (hf : 1 ≤ fuel) :
    pollReg hw cond fuel s = some s := by
  cases fuel with
  | zero => omega
  | succ f => simp [pollReg, hc]

lemma pollReg_exit_next {hw : Regs → Regs} {cond : Regs → Bool} {fuel : Nat}
    {s : Regs} (hc : cond s = false) (hc2 : cond (hw s) = true) (hf : 2 ≤ fuel) :
    pollReg hw cond fuel s = some (hw s) := by
  cases fuel with
  | zero => omega
  | succ f =>
    cases f with
    | zero => omega
    | succ g => simp [pollReg, hc, hc2]

lemma pollReg_id_none {cond : Regs → Bool} {s : Regs} (hc : cond s = false) :
    ∀ fuel : Nat, pollReg id cond fuel s = none := by
  intro fuel
  induction fuel with
  | zero => rfl
  | succ f ih => simp [pollReg, hc]; exact ih

lemma pollReg_cond {hw : Regs → Regs} {cond : Regs → Bool} {fuel : Nat}
    {s s' : Regs} (h : pollReg hw cond fuel s = some s') : cond s' = true := by
  induction fuel generalizing s with
  | zero => simp [pollReg] at h
  | succ f ih =>
    by_cases hc : cond s = true
    · simp [pollReg, hc] at h
      rw [← h]; exact hc
    · rw [pollReg] at h
      rw [Bool.not_eq_true] at hc
      simp [hc] at h
      exact ih h

lemma pollReg_frame_cr {b : Nat} {hw : Regs → Regs} (hhw : HWCrOnly b hw)
    {cond : Regs → Bool} {fuel : Nat} {s s' : Regs}
    (h : pollReg hw cond fuel s = some s') :
    s'.pllcfgr = s.pllcfgr ∧ s'.cfgr = s.cfgr ∧ s'.ahb1enr = s.ahb1enr ∧
    s'.ahb2enr = s.ahb2enr ∧ s'.ahb3enr = s.ahb3enr ∧ s'.apb1enr = s.apb1enr ∧
    s'.apb2enr = s.apb2enr ∧
    ∀ i : Nat, i < 32 → i ≠ b → Nat.testBit s'.cr i = Nat.testBit s.cr i := by
  induction fuel generalizing s with
  | zero => simp [pollReg] at h
  | succ f ih =>
    by_cases hc : cond s = true
    · simp [pollReg, hc] at h
      rw [← h]
      exact ⟨rfl, rfl, rfl, rfl, rfl, rfl, rfl, fun i _ _ => rfl⟩
    · rw [pollReg] at h
      rw [Bool.not_eq_true] at hc
      simp [hc] at h
      obtain ⟨e1, e2, e3, e4, e5, e6, e7, e8⟩ := ih h
      obtain ⟨f1, f2, f3, f4, f5, f6, f7, f8⟩ := hhw s
      refine ⟨e1.trans f1, e2.trans f2, e3.trans f3, e4.trans f4, e5.trans f5,
        e6.trans f6, e7.trans f7, fun i h32 hi => (e8 i h32 hi).trans (f8 i h32 hi)⟩

lemma pollReg_frame_cfgr {hw : Regs → Regs} (hhw : HWCfgrSWS hw)
    {cond : Regs → Bool} {fuel : Nat} {s s' : Regs}
    (h : pollReg hw cond fuel s = some s') :
    s'.cr = s.cr ∧ s'.pllcfgr = s.pllcfgr ∧ s'.ahb1enr = s.ahb1enr ∧
    s'.ahb2enr = s.ahb2enr ∧ s'.ahb3enr = s.ahb3enr ∧ s'.apb1enr = s.apb1enr ∧
    s'.apb2enr = s.apb2enr ∧
    ∀ i : Nat, i < 32 → i ≠ 2 → i ≠ 3 → Nat.testBit s'.cfgr i = Nat.testBit s.cfgr i := by
  induction fuel generalizing s with
  | zero => simp [pollReg] at h
  | succ f ih =>
    by_cases hc : cond s = true
    · simp [pollReg, hc] at h
      rw [← h]
      exact ⟨rfl, rfl, rfl, rfl, rfl, rfl, rfl, fun i _ _ _ => rfl⟩
    · rw [pollReg] at h
      rw [Bool.not_eq_true] at hc
      simp [hc] at h
      obtain ⟨e1, e2, e3, e4, e5, e6, e7, e8⟩ := ih h
      obtain ⟨f1, f2, f3, f4, f5, f6, f7, f8⟩ := hhw s
      refine ⟨e1.trans f1, e2.trans f2, e3.trans f3, e4.trans f4, e5.trans f5,
        e6.trans f6, e7.trans f7, fun i h32 h2 h3 => (e8 i h32 h2 h3).trans (f8 i h32 h2 h3)⟩


lemma field_eq {x v : Nat} (lo w : Nat) (hv : v < 2 ^ w)
    (hbits : ∀ j : Nat, j < w → x.testBit (lo + j) = v.testBit j) :
    (x >>> lo) &&& (2 ^ w - 1) = v := by
  apply Nat.eq_of_testBit_eq
  intro i
  rw [Nat.testBit_land, Nat.testBit_shiftRight, Nat.testBit_two_pow_sub_one]
  by_cases hi : i < w
  · simp [hi, hbits i hi]
  · have h1 : v.testBit i = false := by
      apply Nat.testBit_lt_two_pow
      calc v < 2 ^ w := hv
        _ ≤ 2 ^ i := Nat.pow_le_pow_right (by norm_num) (by omega)
    simp [hi, h1]

lemma pllMN_bits (x d n : Nat) (hd : d < 64) (hn : n < 512) (i : Nat) :
    (((((x &&& cNot 63) &&& cNot (511 <<< 6)) ||| d) % m32 ||| (n <<< 6)) % m32).testBit i =
      (if i < 6 then d.testBit i else if i < 15 then n.testBit (i - 6)
       else if i < 32 then x.testBit i else false) := by
  simp only [testBit_mod32, Nat.testBit_lor, Nat.testBit_land, testBit_cNot,
    Nat.testBit_shiftLeft, t63, t511]
  by_cases h6 : i < 6
  · have e1 : ¬ 6 ≤ i := by omega
    simp [h6, e1, show i < 15 by omega, show i < 32 by omega]
  · by_cases h15 : i < 15
    · have hd1 : d.testBit i = false := by
        apply Nat.testBit_lt_two_pow
        calc d < 64 := hd
          _ ≤ 2 ^ i := by
            calc (64 : Nat) = 2 ^ 6 := by norm_num
              _ ≤ 2 ^ i := Nat.pow_le_pow_right (by norm_num) (by omega)
      simp [h6, h15, show 6 ≤ i by omega, show i - 6 < 9 by omega,
        show i < 32 by omega, hd1]
    · by_cases h32 : i < 32
      · have hd1 : d.testBit i = false := by
          apply Nat.testBit_lt_two_pow
          calc d < 64 := hd
            _ ≤ 2 ^ i := by
              calc (64 : Nat) = 2 ^ 6 := by norm_num
                _ ≤ 2 ^ i := Nat.pow_le_pow_right (by norm_num) (by omega)
        have hn1 : n.testBit (i - 6) = false := by
          apply Nat.testBit_lt_two_pow
          calc n < 512 := hn
            _ ≤ 2 ^ (i - 6) := by
              calc (512 : Nat) = 2 ^ 9 := by norm_num
                _ ≤ 2 ^ (i - 6) := Nat.pow_le_pow_right (by norm_num) (by omega)
        simp [h6, h15, h32, show 6 ≤ i by omega, show ¬ i - 6 < 9 by omega, hd1, hn1]
      · simp [h6, h15, h32]


lemma t12 (i : Nat) : Nat.testBit 12 i = decide (i = 2 ∨ i = 3) := by
  by_cases h : i < 4
  · interval_cases i <;> decide
  · have h1 : Nat.testBit 12 i = false := by
      apply Nat.testBit_lt_two_pow
      calc (12 : Nat) < 2 ^ 4 := by norm_num
        _ ≤ 2 ^ i := Nat.pow_le_pow_right (by norm_num) (by omega)
    rw [h1]
    symm
    simp
    omega

lemma pcodeClear_bits (x i : Nat) :
    (x &&& cNot (3 <<< 16)).testBit i =
      (if i = 16 ∨ i = 17 then false else if i < 32 then x.testBit i else false) := by
  simp only [Nat.testBit_land, testBit_cNot, Nat.testBit_shiftLeft, t3]
  by_cases h16 : i = 16 ∨ i = 17
  · rcases h16 with h | h <;> simp [h]
  · by_cases h32 : i < 32
    · simp [h16, h32]
      intro h1
      omega
    · simp [h16, h32]
      omega

lemma pcodeWrite_bits (x c i : Nat) (hc : c < 4) :
    (((x &&& cNot (3 <<< 16)) ||| (c <<< 16)) % m32).testBit i =
      (if i = 16 ∨ i = 17 then c.testBit (i - 16)
       else if i < 32 then x.testBit i else false) := by
  rw [testBit_mod32, Nat.testBit_lor, pcodeClear_bits, Nat.testBit_shiftLeft]
  by_cases h16 : i = 16 ∨ i = 17
  · rcases h16 with h | h <;> simp [h]
  · by_cases h32 : i < 32
    · have hc1 : (decide (i ≥ 16) && c.testBit (i - 16)) = false := by
        by_cases hge : 16 ≤ i
        · have : c.testBit (i - 16) = false := by
            apply Nat.testBit_lt_two_pow
            calc c < 4 := hc
              _ ≤ 2 ^ (i - 16) := by
                calc (4 : Nat) = 2 ^ 2 := by norm_num
                  _ ≤ 2 ^ (i - 16) := Nat.pow_le_pow_right (by norm_num) (by omega)
          simp [this]
        · simp [hge]
      simp [h16, h32, hc1]
    · simp [h16, h32]

lemma sysWrite_bits (x v i : Nat) (hv : v < 4) :
    (((x &&& cNot 3) ||| v) % m32).testBit i =
      (if i < 2 then v.testBit i else if i < 32 then x.testBit i else false) := by
  simp only [testBit_mod32, Nat.testBit_lor, Nat.testBit_land, testBit_cNot, t3]
  by_cases h2 : i < 2
  · simp [h2, show i < 32 by omega]
  · by_cases h32 : i < 32
    · have hv1 : v.testBit i = false := by
        apply Nat.testBit_lt_two_pow
        calc v < 4 := hv
          _ ≤ 2 ^ i := by
            calc (4 : Nat) = 2 ^ 2 := by norm_num
              _ ≤ 2 ^ i := Nat.pow_le_pow_right (by norm_num) (by omega)
      simp [h2, h32, hv1]
    · have hv1 : v.testBit i = false := by
        apply Nat.testBit_lt_two_pow
        calc v < 4 := hv
          _ ≤ 2 ^ i := by
            calc (4 : Nat) = 2 ^ 2 := by norm_num
              _ ≤ 2 ^ i := Nat.pow_le_pow_right (by norm_num) (by omega)
      simp [h2, h32, hv1]

lemma hwSys_cfgr_bits (x i : Nat) :
    (((x &&& cNot 12) ||| ((x &&& 3) <<< 2)) % m32).testBit i =
      (if i = 2 ∨ i = 3 then x.testBit (i - 2) else if i < 32 then x.testBit i else false) := by
  simp only [testBit_mod32, Nat.testBit_lor, Nat.testBit_land, testBit_cNot,
    Nat.testBit_shiftLeft, t12, t3]
  by_cases h23 : i = 2 ∨ i = 3
  · rcases h23 with h | h <;> simp [h]
  · by_cases h32 : i < 32
    · simp [h23, h32]
      intro hge hx hlt
      exfalso
      omega
    · simp [h23, h32]

lemma pllM_eq {x v : Nat} (hv : v < 64)
    (hbits : ∀ j : Nat, j < 6 → x.testBit j = v.testBit j) : pllM x = v := by
  have h := @field_eq x v 0 6 hv (fun j hj => by simpa using hbits j hj)
  simpa [pllM, Nat.shiftRight_zero] using h

lemma pllN_eq {x v : Nat} (hv : v < 512)
    (hbits : ∀ j : Nat, j < 9 → x.testBit (6 + j) = v.testBit j) : pllN x = v := by
  have h := @field_eq x v 6 9 hv hbits
  simpa [pllN] using h

lemma pllP_eq {x v : Nat} (hv : v < 4)
    (hbits : ∀ j : Nat, j < 2 → x.testBit (16 + j) = v.testBit j) : pllP x = v := by
  have h := @field_eq x v 16 2 hv hbits
  simpa [pllP] using h

lemma pllSrc_eq {x v : Nat} (hv : v < 2)
    (hbits : ∀ j : Nat, j < 1 → x.testBit (22 + j) = v.testBit j) : pllSrc x = v := by
  have h := @field_eq x v 22 1 hv hbits
  simpa [pllSrc] using h

lemma sysSel_eq {x v : Nat} (hv : v < 4)
    (hbits : ∀ j : Nat, j < 2 → x.testBit j = v.testBit j) : sysSel x = v := by
  have h := @field_eq x v 0 2 hv (fun j hj => by simpa using hbits j hj)
  simpa [sysSel, Nat.shiftRight_zero] using h

lemma sysConf_eq {x v : Nat} (hv : v < 4)
    (hbits : ∀ j : Nat, j < 2 → x.testBit (2 + j) = v.testBit j) : sysConf x = v := by
  have h := @field_eq x v 2 2 hv hbits
  simpa [sysConf] using h


lemma hwPLL_crOnly : HWCrOnly 25 hwPLL := by
  intro t
  refine ⟨rfl, rfl, rfl, rfl, rfl, rfl, rfl, fun i h32 hi => ?_⟩
  by_cases h : ((t.cr >>> 24) &&& 1) == 1
  · rw [show (hwPLL t).cr = (t.cr ||| (1 <<< 25)) % m32 by rw [hwPLL]; exact if_pos h]
    rw [testBit_setBit]
    simp [h32, hi]
  · rw [show (hwPLL t).cr = t.cr &&& cNot (1 <<< 25) by rw [hwPLL]; exact if_neg h]
    rw [testBit_clearBit _ _ _ (by norm_num)]
    simp [h32, hi]

lemma hwReady_crOnly (b : Nat) : HWCrOnly b (hwReady b) := by
  intro t
  refine ⟨rfl, rfl, rfl, rfl, rfl, rfl, rfl, fun i h32 hi => ?_⟩
  rw [show (hwReady b t).cr = (t.cr ||| 1 <<< b) % m32 from rfl]
  rw [testBit_setBit]
  simp [h32, hi]

lemma hwSys_sws : HWCfgrSWS hwSys := by
  intro t
  refine ⟨rfl, rfl, rfl, rfl, rfl, rfl, rfl, fun i h32 h2 h3 => ?_⟩
  rw [show (hwSys t).cfgr = ((t.cfgr &&& cNot 12) ||| ((t.cfgr &&& 3) <<< 2)) % m32 from rfl]
  rw [hwSys_cfgr_bits]
  simp [h32, h2, h3]

lemma hwPLL_bit25 (s : Regs) : (hwPLL s).cr.testBit 25 = s.cr.testBit 24 := by
  by_cases h : ((s.cr >>> 24) &&& 1) == 1
  · rw [show (hwPLL s).cr = (s.cr ||| (1 <<< 25)) % m32 by rw [hwPLL]; exact if_pos h]
    rw [testBit_setBit]
    rw [beq1_testBit] at h
    simp [h]
  · rw [show (hwPLL s).cr = s.cr &&& cNot (1 <<< 25) by rw [hwPLL]; exact if_neg h]
    rw [testBit_clearBit _ _ _ (by norm_num)]
    rw [beq1_testBit] at h
    rw [Bool.not_eq_true] at h
    simp [h]



lemma pcodeStep_none {D : Nat} (hD3 : ¬ (D = 2 ∨ D = 4 ∨ D = 6 ∨ D = 8))
    (t : Regs) : pcodeStep D t = none := by
  rw [pcodeStep, if_neg (by omega), if_neg (by omega), if_neg (by omega),
    if_neg (by omega)]

lemma pllAfterSrc_defaultP {hw : Regs → Regs} {fuel N D : Nat} {s : Regs}
    (hN1 : 50 ≤ N) (hN2 : N ≤ 432) (hD1 : 2 ≤ D) (hD2 : D ≤ 63)
    (hD3 : ¬ (D = 2 ∨ D = 4 ∨ D = 6 ∨ D = 8)) :
    pllAfterSrc hw fuel N D s =
      some (1, { s with pllcfgr :=
        ((((s.pllcfgr &&& cNot 63) &&& cNot (511 <<< 6)) ||| D) % m32 ||| (N <<< 6)) % m32 }) := by
  rw [pllAfterSrc, if_neg (by omega), if_neg (by omega)]
  simp only [pcodeStep_none hD3]


lemma pcodeClear_then_mn_bits (x D N : Nat) (hd : D < 64) (hn : N < 512) (i : Nat) :
    (((((x &&& cNot 63) &&& cNot (511 <<< 6)) ||| D) % m32 ||| (N <<< 6)) % m32 &&&
        cNot (3 <<< 16)).testBit i =
      (if i = 16 ∨ i = 17 then false
       else if i < 6 then D.testBit i
       else if i < 15 then N.testBit (i - 6)
       else if i < 32 then x.testBit i else false) := by
  rw [pcodeClear_bits, pllMN_bits x D N hd hn]
  by_cases h16 : i = 16 ∨ i = 17
  · simp [h16]
  · by_cases h6 : i < 6
    · simp [h16, h6, show i < 32 by omega]
    · by_cases h15 : i < 15
      · simp [h16, h6, h15, show i < 32 by omega]
      · by_cases h32 : i < 32 <;> simp [h16, h6, h15, h32]

lemma pcode_then_mn_bits (x D N c : Nat) (hd : D < 64) (hn : N < 512) (hc : c < 4)
    (i : Nat) :
    ((((((x &&& cNot 63) &&& cNot (511 <<< 6)) ||| D) % m32 ||| (N <<< 6)) % m32 &&&
        cNot (3 <<< 16) ||| (c <<< 16)) % m32).testBit i =
      (if i = 16 ∨ i = 17 then c.testBit (i - 16)
       else if i < 6 then D.testBit i
       else if i < 15 then N.testBit (i - 6)
       else if i < 32 then x.testBit i else false) := by
  rw [pcodeWrite_bits _ _ _ hc, pllMN_bits x D N hd hn]
  by_cases h16 : i = 16 ∨ i = 17
  · simp [h16]
  · by_cases h6 : i < 6
    · simp [h16, h6, show i < 32 by omega]
    · by_cases h15 : i < 15
      · simp [h16, h6, h15, show i < 32 by omega]
      · by_cases h32 : i < 32 <;> simp [h16, h6, h15, h32]

lemma pllAfterSrc_valid {hw : Regs → Regs} {fuel N D : Nat} {s : Regs}
    (hN1 : 50 ≤ N) (hN2 : N ≤ 432) (hDmem : D = 2 ∨ D = 4 ∨ D = 6 ∨ D = 8) :
    ∃ s5 : Regs,
      pllAfterSrc hw fuel N D s =
        (match pollReg hw (fun t => ((t.cr >>> 25) &&& 1) == 1) fuel
            { s5 with cr := (s5.cr ||| (1 <<< 24)) % m32 } with
         | none => none
         | some s7 => some (0, s7)) ∧
      s5.cr = s.cr ∧ s5.cfgr = s.cfgr ∧ s5.ahb1enr = s.ahb1enr ∧
      s5.ahb2enr = s.ahb2enr ∧ s5.ahb3enr = s.ahb3enr ∧
      s5.apb1enr = s.apb1enr ∧ s5.apb2enr = s.apb2enr ∧
      ∀ i : Nat, s5.pllcfgr.testBit i =
        (if i = 16 ∨ i = 17 then (pcode D).testBit (i - 16)
         else if i < 6 then D.testBit i
         else if i < 15 then N.testBit (i - 6)
         else if i < 32 then s.pllcfgr.testBit i else false) := by
  have hd : D < 64 := by omega
  have hn : N < 512 := by omega
  rcases hDmem with hD | hD | hD | hD <;> subst hD
  · refine ⟨{ s with pllcfgr := (pllWritten 2 N s).pllcfgr &&& cNot (3 <<< 16) }, ?_, rfl,
      rfl, rfl, rfl, rfl, rfl, rfl, ?_⟩
    · rw [pllAfterSrc, if_neg (by omega), if_neg (by omega)]
      simp only [show ∀ t : Regs, pcodeStep 2 t =
        some { t with pllcfgr := t.pllcfgr &&& cNot (3 <<< 16) } from fun t => rfl]
      rfl
    · intro i
      rw [show ({ s with pllcfgr := (pllWritten 2 N s).pllcfgr &&& cNot (3 <<< 16) } : Regs).pllcfgr
          = (pllWritten 2 N s).pllcfgr &&& cNot (3 <<< 16) from rfl]
      rw [show (pllWritten 2 N s).pllcfgr =
          ((((s.pllcfgr &&& cNot 63) &&& cNot (511 <<< 6)) ||| 2) % m32 ||| (N <<< 6)) % m32 from rfl]
      rw [pcodeClear_then_mn_bits _ _ _ hd hn]
      by_cases h16 : i = 16 ∨ i = 17
      · simp [h16, pcode]
      · simp [h16]
  · refine ⟨{ s with pllcfgr := ((pllWritten 4 N s).pllcfgr &&& cNot (3 <<< 16) ||| (1 <<< 16)) % m32 }, ?_, rfl,
      rfl, rfl, rfl, rfl, rfl, rfl, ?_⟩
    · rw [pllAfterSrc, if_neg (by omega), if_neg (by omega)]
      simp only [show ∀ t : Regs, pcodeStep 4 t =
        some { t with pllcfgr := (t.pllcfgr &&& cNot (3 <<< 16) ||| (1 <<< 16)) % m32 } from fun t => rfl]
      rfl
    · intro i
      rw [show ({ s with pllcfgr := ((pllWritten 4 N s).pllcfgr &&& cNot (3 <<< 16) ||| (1 <<< 16)) % m32 } : Regs).pllcfgr
          = ((pllWritten 4 N s).pllcfgr &&& cNot (3 <<< 16) ||| (1 <<< 16)) % m32 from rfl]
      rw [show (pllWritten 4 N s).pllcfgr =
          ((((s.pllcfgr &&& cNot 63) &&& cNot (511 <<< 6)) ||| 4) % m32 ||| (N <<< 6)) % m32 from rfl]
      rw [pcode_then_mn_bits _ _ _ _ hd hn (by norm_num)]
      rfl
  · refine ⟨{ s with pllcfgr := ((pllWritten 6 N s).pllcfgr &&& cNot (3 <<< 16) ||| (2 <<< 16)) % m32 }, ?_, rfl,
      rfl, rfl, rfl, rfl, rfl, rfl, ?_⟩
    · rw [pllAfterSrc, if_neg (by omega), if_neg (by omega)]
      simp only [show ∀ t : Regs, pcodeStep 6 t =
        some { t with pllcfgr := (t.pllcfgr &&& cNot (3 <<< 16) ||| (2 <<< 16)) % m32 } from fun t => rfl]
      rfl
    · intro i
      rw [show ({ s with pllcfgr := ((pllWritten 6 N s).pllcfgr &&& cNot (3 <<< 16) ||| (2 <<< 16)) % m32 } : Regs).pllcfgr
          = ((pllWritten 6 N s).pllcfgr &&& cNot (3 <<< 16) ||| (2 <<< 16)) % m32 from rfl]
      rw [show (pllWritten 6 N s).pllcfgr =
          ((((s.pllcfgr &&& cNot 63) &&& cNot (511 <<< 6)) ||| 6) % m32 ||| (N <<< 6)) % m32 from rfl]
      rw [pcode_then_mn_bits _ _ _ _ hd hn (by norm_num)]
      rfl
  · refine ⟨{ s with pllcfgr := ((pllWritten 8 N s).pllcfgr &&& cNot (3 <<< 16) ||| (3 <<< 16)) % m32 }, ?_, rfl,
      rfl, rfl, rfl, rfl, rfl, rfl, ?_⟩
    · rw [pllAfterSrc, if_neg (by omega), if_neg (by omega)]
      simp only [show ∀ t : Regs, pcodeStep 8 t =
        some { t with pllcfgr := (t.pllcfgr &&& cNot (3 <<< 16) ||| (3 <<< 16)) % m32 } from fun t => rfl]
      rfl
    · intro i
      rw [show ({ s with pllcfgr := ((pllWritten 8 N s).pllcfgr &&& cNot (3 <<< 16) ||| (3 <<< 16)) % m32 } : Regs).pllcfgr
          = ((pllWritten 8 N s).pllcfgr &&& cNot (3 <<< 16) ||| (3 <<< 16)) % m32 from rfl]
      rw [show (pllWritten 8 N s).pllcfgr =
          ((((s.pllcfgr &&& cNot 63) &&& cNot (511 <<< 6)) ||| 8) % m32 ||| (N <<< 6)) % m32 from rfl]
      rw [pcode_then_mn_bits _ _ _ _ hd hn (by norm_num)]
      rfl


lemma cr_bit24_after_poll {hw : Regs → Regs} {fuel : Nat} {s s2 : Regs}
    (hhw : HWCrOnly 25 hw)
    (hpoll : pollReg hw (fun t => ((t.cr >>> 25) &&& 1) == 0) fuel
      { s with cr := s.cr &&& cNot (1 <<< 24) } = some s2) :
    s2.cr.testBit 24 = false := by
  obtain ⟨-, -, -, -, -, -, -, e8⟩ := pollReg_frame_cr hhw hpoll
  rw [e8 24 (by norm_num) (by norm_num)]
  rw [show ({ s with cr := s.cr &&& cNot (1 <<< 24) } : Regs).cr
      = s.cr &&& cNot (1 <<< 24) from rfl]
  rw [testBit_clearBit _ _ _ (by norm_num)]
  simp

/-- Claim C4: for a division factor inside [2, 63] but outside
{2, 4, 6, 8} (with valid source and N), RCC_PLL_Config returns the
failure indicator 1 while the PLL enable bit (CR bit 24) is cleared and
the M and N fields of PLLCFGR have already been overwritten with the new
values — the operation is not atomic on failure. -/
theorem pll_config_invalid_division_nonatomic
    (hw : Regs → Regs) (fuel N D Src : Nat) (s : Regs) (r : Nat) (s' : Regs)
    (hhw : HWCrOnly 25 hw)
    (hSrc : Src = HSI ∨ Src = HSE)
    (hN1 : 50 ≤ N) (hN2 : N ≤ 432)
    (hD1 : 2 ≤ D) (hD2 : D ≤ 63)
    (hD3 : ¬ (D = 2 ∨ D = 4 ∨ D = 6 ∨ D = 8))
    (hrun : RCC_PLL_Config hw fuel N D Src s = some (r, s')) :
    r = 1 ∧ s'.cr.testBit 24 = false ∧ pllM s'.pllcfgr = D ∧ pllN s'.pllcfgr = N := by
  rw [RCC_PLL_Config] at hrun
  cases hpoll : pollReg hw (fun t => ((t.cr >>> 25) &&& 1) == 0) fuel
      { s with cr := s.cr &&& cNot (1 <<< 24) } with
  | none =>
    rw [hpoll] at hrun
    simp at hrun
  | some s2 =>
    simp only [hpoll] at hrun
    have hbit24 : s2.cr.testBit 24 = false := cr_bit24_after_poll hhw hpoll
    rcases hSrc with hS | hS <;> subst hS
    · rw [if_pos rfl] at hrun
      rw [pllAfterSrc_defaultP hN1 hN2 hD1 hD2 hD3] at hrun
      simp only [Option.some.injEq, Prod.mk.injEq] at hrun
      obtain ⟨hr, hs⟩ := hrun
      refine ⟨hr.symm, ?_, ?_, ?_⟩
      · rw [← hs]
        exact hbit24
      · rw [← hs]
        apply pllM_eq (by omega)
        intro j hj
        rw [pllMN_bits _ _ _ (by omega) (by omega)]
        simp [hj]
      · rw [← hs]
        apply pllN_eq (by omega)
        intro j hj
        rw [pllMN_bits _ _ _ (by omega) (by omega)]
        simp [show ¬ (6 + j < 6) by omega, show 6 + j < 15 by omega]
    · rw [if_neg (by decide), if_pos rfl] at hrun
      rw [pllAfterSrc_defaultP hN1 hN2 hD1 hD2 hD3] at hrun
      simp only [Option.some.injEq, Prod.mk.injEq] at hrun
      obtain ⟨hr, hs⟩ := hrun
      refine ⟨hr.symm, ?_, ?_, ?_⟩
      · rw [← hs]
        exact hbit24
      · rw [← hs]
        apply pllM_eq (by omega)
        intro j hj
        rw [pllMN_bits _ _ _ (by omega) (by omega)]
        simp [hj]
      · rw [← hs]
        apply pllN_eq (by omega)
        intro j hj
        rw [pllMN_bits _ _ _ (by omega) (by omega)]
        simp [show ¬ (6 + j < 6) by omega, show 6 + j < 15 by omega]


lemma pllAfterSrc_invalidN {hw : Regs → Regs} {fuel N D : Nat} {s : Regs}
    (hN : N < 50 ∨ 432 < N) :
    pllAfterSrc hw fuel N D s = some (1, s) := by
  rw [pllAfterSrc, if_pos (by omega)]

lemma pllConfig_poll1 {fuel : Nat} {s : Regs} (hf : 2 ≤ fuel) :
    ∃ s2 : Regs,
      pollReg hwPLL (fun t => ((t.cr >>> 25) &&& 1) == 0) fuel
        { s with cr := s.cr &&& cNot (1 <<< 24) } = some s2 ∧
      s2.pllcfgr = s.pllcfgr ∧ s2.cfgr = s.cfgr ∧ s2.ahb1enr = s.ahb1enr ∧
      s2.ahb2enr = s.ahb2enr ∧ s2.ahb3enr = s.ahb3enr ∧
      s2.apb1enr = s.apb1enr ∧ s2.apb2enr = s.apb2enr ∧
      s2.cr.testBit 25 = false ∧ s2.cr.testBit 24 = false := by
  have e1 : ({ s with cr := s.cr &&& cNot (1 <<< 24) } : Regs).cr
      = s.cr &&& cNot (1 <<< 24) := rfl
  have h24 : ({ s with cr := s.cr &&& cNot (1 <<< 24) } : Regs).cr.testBit 24 = false := by
    rw [e1, testBit_clearBit _ _ _ (by norm_num)]
    simp
  have h25 : ({ s with cr := s.cr &&& cNot (1 <<< 24) } : Regs).cr.testBit 25
      = s.cr.testBit 25 := by
    rw [e1, testBit_clearBit _ _ _ (by norm_num)]
    simp
  by_cases hb : s.cr.testBit 25
  · refine ⟨hwPLL { s with cr := s.cr &&& cNot (1 <<< 24) }, ?_, rfl, rfl, rfl, rfl,
      rfl, rfl, rfl, ?_, ?_⟩
    · apply pollReg_exit_next _ _ hf
      · rw [beq0_testBit, h25, hb]
        rfl
      · rw [beq0_testBit, hwPLL_bit25, h24]
        rfl
    · rw [hwPLL_bit25, h24]
    · obtain ⟨-, -, -, -, -, -, -, e8⟩ := hwPLL_crOnly { s with cr := s.cr &&& cNot (1 <<< 24) }
      rw [e8 24 (by norm_num) (by norm_num), h24]
  · refine ⟨{ s with cr := s.cr &&& cNot (1 <<< 24) }, ?_, rfl, rfl, rfl, rfl,
      rfl, rfl, rfl, ?_, h24⟩
    · apply pollReg_exit_now _ (by omega)
      rw [beq0_testBit, h25]
      rw [Bool.not_eq_true] at hb
      rw [hb]
      rfl
    · rw [h25]
      rw [Bool.not_eq_true] at hb
      exact hb

lemma pllEnable_poll2 {fuel : Nat} {s5 : Regs} (hf : 2 ≤ fuel)
    (h25 : s5.cr.testBit 25 = false) :
    pollReg hwPLL (fun t => ((t.cr >>> 25) &&& 1) == 1) fuel
        { s5 with cr := (s5.cr ||| (1 <<< 24)) % m32 } =
      some (hwPLL { s5 with cr := (s5.cr ||| (1 <<< 24)) % m32 }) ∧
    (hwPLL { s5 with cr := (s5.cr ||| (1 <<< 24)) % m32 }).cr.testBit 24 = true ∧
    (hwPLL { s5 with cr := (s5.cr ||| (1 <<< 24)) % m32 }).cr.testBit 25 = true ∧
    (hwPLL { s5 with cr := (s5.cr ||| (1 <<< 24)) % m32 }).pllcfgr = s5.pllcfgr := by
  have e1 : ({ s5 with cr := (s5.cr ||| (1 <<< 24)) % m32 } : Regs).cr
      = (s5.cr ||| (1 <<< 24)) % m32 := rfl
  have h24 : ({ s5 with cr := (s5.cr ||| (1 <<< 24)) % m32 } : Regs).cr.testBit 24 = true := by
    rw [e1, testBit_setBit]
    simp
  have h25b : ({ s5 with cr := (s5.cr ||| (1 <<< 24)) % m32 } : Regs).cr.testBit 25 = false := by
    rw [e1, testBit_setBit]
    simp [h25]
  have hb25 : (hwPLL { s5 with cr := (s5.cr ||| (1 <<< 24)) % m32 }).cr.testBit 25 = true := by
    rw [hwPLL_bit25, h24]
  have hb24 : (hwPLL { s5 with cr := (s5.cr ||| (1 <<< 24)) % m32 }).cr.testBit 24 = true := by
    obtain ⟨-, -, -, -, -, -, -, e8⟩ := hwPLL_crOnly { s5 with cr := (s5.cr ||| (1 <<< 24)) % m32 }
    rw [e8 24 (by norm_num) (by norm_num), h24]
  refine ⟨?_, hb24, hb25, rfl⟩
  apply pollReg_exit_next _ _ hf
  · rw [beq1_testBit, h25b]
  · rw [beq1_testBit, hb25]


lemma pcode_lt (D : Nat) : pcode D < 4 := by
  unfold pcode
  split <;> norm_num

/-- Claim C3: for a valid source (HSI or HSE), N in [50, 432] and a
division factor in {2, 4, 6, 8}, RCC_PLL_Config succeeds under the
responsive hardware model, and on return PLLCFGR holds M = the division
factor, N = the multiplier, the P code from the table {2→0, 4→1, 6→2,
8→3}, the source bit (0 for HSI, 1 for HSE), with CR bit 24 set and its
ready bit 25 confirmed. -/
theorem pll_config_valid_success_fields
    (fuel N D Src : Nat) (s : Regs)
    (hf : 2 ≤ fuel) (hSrc : Src = HSI ∨ Src = HSE)
    (hN1 : 50 ≤ N) (hN2 : N ≤ 432)
    (hDmem : D = 2 ∨ D = 4 ∨ D = 6 ∨ D = 8) :
    ∃ s' : Regs,
      RCC_PLL_Config hwPLL fuel N D Src s = some (0, s') ∧
      pllM s'.pllcfgr = D ∧ pllN s'.pllcfgr = N ∧ pllP s'.pllcfgr = pcode D ∧
      pllSrc s'.pllcfgr = (if Src = HSI then 0 else 1) ∧
      s'.cr.testBit 24 = true ∧ s'.cr.testBit 25 = true := by
  obtain ⟨s2, hpoll, hpc, hcf, h1e, h2e, h3e, h4e, h5e, h25, h24⟩ := @pllConfig_poll1 fuel s hf
  rw [RCC_PLL_Config]
  simp only [hpoll]
  rcases hSrc with hS | hS <;> subst hS
  · rw [if_pos rfl]
    obtain ⟨s5, hEq, hcr5, hcfgr5, hb1, hb2, hb3, hb4, hb5, hbits⟩ :=
      @pllAfterSrc_valid hwPLL fuel N D
        { s2 with pllcfgr := s2.pllcfgr &&& cNot (1 <<< 22) } hN1 hN2 hDmem
    rw [hEq]
    obtain ⟨hpoll2, hc24, hc25, hcpll⟩ := @pllEnable_poll2 fuel s5 hf (by rw [hcr5]; exact h25)
    rw [hpoll2]
    refine ⟨_, rfl, ?_, ?_, ?_, ?_, hc24, hc25⟩
    · rw [hcpll]
      apply pllM_eq (by omega)
      intro j hj
      rw [hbits j]
      simp [show ¬ (j = 16 ∨ j = 17) by omega, hj]
    · rw [hcpll]
      apply pllN_eq (by omega)
      intro j hj
      rw [hbits (6 + j)]
      simp [show ¬ (6 + j = 16 ∨ 6 + j = 17) by omega, show ¬ (6 + j < 6) by omega,
        show 6 + j < 15 by omega, Nat.add_sub_cancel_left]
    · rw [hcpll]
      apply pllP_eq (pcode_lt D)
      intro j hj
      rw [hbits (16 + j), if_pos (show 16 + j = 16 ∨ 16 + j = 17 by omega),
        show 16 + j - 16 = j by omega]
    · rw [hcpll, if_pos rfl]
      apply pllSrc_eq (by norm_num)
      intro j hj
      have hj0 : j = 0 := by omega
      subst hj0
      rw [hbits 22]
      rw [show ({ s2 with pllcfgr := s2.pllcfgr &&& cNot (1 <<< 22) } : Regs).pllcfgr
          = s2.pllcfgr &&& cNot (1 <<< 22) from rfl]
      rw [testBit_clearBit _ _ _ (by norm_num)]
      simp
  · rw [if_neg (by decide), if_pos rfl]
    obtain ⟨s5, hEq, hcr5, hcfgr5, hb1, hb2, hb3, hb4, hb5, hbits⟩ :=
      @pllAfterSrc_valid hwPLL fuel N D
        { s2 with pllcfgr := (s2.pllcfgr ||| (1 <<< 22)) % m32 } hN1 hN2 hDmem
    rw [hEq]
    obtain ⟨hpoll2, hc24, hc25, hcpll⟩ := @pllEnable_poll2 fuel s5 hf (by rw [hcr5]; exact h25)
    rw [hpoll2]
    refine ⟨_, rfl, ?_, ?_, ?_, ?_, hc24, hc25⟩
    · rw [hcpll]
      apply pllM_eq (by omega)
      intro j hj
      rw [hbits j]
      simp [show ¬ (j = 16 ∨ j = 17) by omega, hj]
    · rw [hcpll]
      apply pllN_eq (by omega)
      intro j hj
      rw [hbits (6 + j)]
      simp [show ¬ (6 + j = 16 ∨ 6 + j = 17) by omega, show ¬ (6 + j < 6) by omega,
        show 6 + j < 15 by omega, Nat.add_sub_cancel_left]
    · rw [hcpll]
      apply pllP_eq (pcode_lt D)
      intro j hj
      rw [hbits (16 + j), if_pos (show 16 + j = 16 ∨ 16 + j = 17 by omega),
        show 16 + j - 16 = j by omega]
    · rw [hcpll, if_neg (by decide)]
      apply pllSrc_eq (by norm_num)
      intro j hj
      have hj0 : j = 0 := by omega
      subst hj0
      rw [hbits 22]
      rw [show ({ s2 with pllcfgr := (s2.pllcfgr ||| (1 <<< 22)) % m32 } : Regs).pllcfgr
          = (s2.pllcfgr ||| (1 <<< 22)) % m32 from rfl]
      rw [testBit_setBit]
      simp


lemma pllAfterSrc_invalidD {hw : Regs → Regs} {fuel N D : Nat} {s : Regs}
    (hN : ¬ (N < 50 ∨ 432 < N)) (hD : D < 2 ∨ 63 < D) :
    pllAfterSrc hw fuel N D s = some (1, s) := by
  rw [pllAfterSrc, if_neg (by omega), if_pos (by omega)]

/-- Claim C2 (amended): for N outside [50, 432] and a valid source,
RCC_PLL_Config returns the failure indicator 1, but only after it has
already cleared the PLL enable bit (CR bit 24) and written the PLL
source-select bit (PLLCFGR bit 22); all other software-visible bits of
CR (apart from the hardware ready bit 25) and of PLLCFGR, and all other
registers, keep their prior values. -/
theorem pll_config_invalid_N_fails_after_prior_write
    (hw : Regs → Regs) (fuel N D Src : Nat) (s : Regs) (r : Nat) (s' : Regs)
    (hhw : HWCrOnly 25 hw)
    (hSrc : Src = HSI ∨ Src = HSE)
    (hN : N < 50 ∨ 432 < N)
    (hrun : RCC_PLL_Config hw fuel N D Src s = some (r, s')) :
    r = 1 ∧ s'.cr.testBit 24 = false ∧
    (∀ i : Nat, i < 32 → i ≠ 24 → i ≠ 25 → s'.cr.testBit i = s.cr.testBit i) ∧
    (∀ i : Nat, i < 32 → i ≠ 22 → s'.pllcfgr.testBit i = s.pllcfgr.testBit i) ∧
    pllSrc s'.pllcfgr = (if Src = HSI then 0 else 1) ∧
    s'.cfgr = s.cfgr ∧ s'.ahb1enr = s.ahb1enr ∧ s'.ahb2enr = s.ahb2enr ∧
    s'.ahb3enr = s.ahb3enr ∧ s'.apb1enr = s.apb1enr ∧ s'.apb2enr = s.apb2enr := by
  rw [RCC_PLL_Config] at hrun
  cases hpoll : pollReg hw (fun t => ((t.cr >>> 25) &&& 1) == 0) fuel
      { s with cr := s.cr &&& cNot (1 <<< 24) } with
  | none =>
    rw [hpoll] at hrun
    simp at hrun
  | some s2 =>
    simp only [hpoll] at hrun
    have hbit24 : s2.cr.testBit 24 = false := cr_bit24_after_poll hhw hpoll
    obtain ⟨f1, f2, f3, f4, f5, f6, f7, f8⟩ := pollReg_frame_cr hhw hpoll
    have hcr : ∀ i : Nat, i < 32 → i ≠ 24 → i ≠ 25 → s2.cr.testBit i = s.cr.testBit i := by
      intro i h32 hi24 hi25
      rw [f8 i h32 hi25]
      rw [show ({ s with cr := s.cr &&& cNot (1 <<< 24) } : Regs).cr
          = s.cr &&& cNot (1 <<< 24) from rfl]
      rw [testBit_clearBit _ _ _ (by norm_num)]
      simp [h32, hi24]
    rcases hSrc with hS | hS <;> subst hS
    · rw [if_pos rfl, pllAfterSrc_invalidN hN] at hrun
      simp only [Option.some.injEq, Prod.mk.injEq] at hrun
      obtain ⟨hr, hs⟩ := hrun
      subst hs
      refine ⟨hr.symm, hbit24, hcr, ?_, ?_, f2, f3, f4, f5, f6, f7⟩
      · intro i h32 hi22
        rw [show ({ s2 with pllcfgr := s2.pllcfgr &&& cNot (1 <<< 22) } : Regs).pllcfgr
            = s2.pllcfgr &&& cNot (1 <<< 22) from rfl]
        rw [testBit_clearBit _ _ _ (by norm_num)]
        simp [h32, hi22]
        rw [f1]
      · rw [if_pos rfl]
        apply pllSrc_eq (by norm_num)
        intro j hj
        have hj0 : j = 0 := by omega
        subst hj0
        rw [show ({ s2 with pllcfgr := s2.pllcfgr &&& cNot (1 <<< 22) } : Regs).pllcfgr
            = s2.pllcfgr &&& cNot (1 <<< 22) from rfl]
        rw [testBit_clearBit _ _ _ (by norm_num)]
        simp
    · rw [if_neg (by decide), if_pos rfl, pllAfterSrc_invalidN hN] at hrun
      simp only [Option.some.injEq, Prod.mk.injEq] at hrun
      obtain ⟨hr, hs⟩ := hrun
      subst hs
      refine ⟨hr.symm, hbit24, hcr, ?_, ?_, f2, f3, f4, f5, f6, f7⟩
      · intro i h32 hi22
        rw [show ({ s2 with pllcfgr := (s2.pllcfgr ||| (1 <<< 22)) % m32 } : Regs).pllcfgr
            = (s2.pllcfgr ||| (1 <<< 22)) % m32 from rfl]
        rw [testBit_setBit]
        simp [h32, hi22]
        rw [f1]
      · rw [if_neg (by decide)]
        apply pllSrc_eq (by norm_num)
        intro j hj
        have hj0 : j = 0 := by omega
        subst hj0
        rw [show ({ s2 with pllcfgr := (s2.pllcfgr ||| (1 <<< 22)) % m32 } : Regs).pllcfgr
            = (s2.pllcfgr ||| (1 <<< 22)) % m32 from rfl]
        rw [testBit_setBit]
        simp


/-- Claim C10 (amended): when RCC_PLL_Config returns success, the only
software-modified bits are PLLCFGR fields [5:0], [14:6], [17:16] and
bit 22, and CR bit 24; every other bit of both registers keeps its prior
value except CR bit 25, the hardware-driven ready flag set during the
final lock wait, and all other registers are untouched. -/
theorem pll_config_success_frame
    (hw : Regs → Regs) (fuel N D Src : Nat) (s s' : Regs)
    (hhw : HWCrOnly 25 hw)
    (hrun : RCC_PLL_Config hw fuel N D Src s = some (0, s')) :
    s'.cr.testBit 24 = true ∧
    (∀ i : Nat, i < 32 → i ≠ 24 → i ≠ 25 → s'.cr.testBit i = s.cr.testBit i) ∧
    (∀ i : Nat, i < 32 → ¬ (i ≤ 5 ∨ (6 ≤ i ∧ i ≤ 14) ∨ i = 16 ∨ i = 17 ∨ i = 22) →
      s'.pllcfgr.testBit i = s.pllcfgr.testBit i) ∧
    s'.cfgr = s.cfgr ∧ s'.ahb1enr = s.ahb1enr ∧ s'.ahb2enr = s.ahb2enr ∧
    s'.ahb3enr = s.ahb3enr ∧ s'.apb1enr = s.apb1enr ∧ s'.apb2enr = s.apb2enr := by
  rw [RCC_PLL_Config] at hrun
  cases hpoll : pollReg hw (fun t => ((t.cr >>> 25) &&& 1) == 0) fuel
      { s with cr := s.cr &&& cNot (1 <<< 24) } with
  | none =>
    rw [hpoll] at hrun
    simp at hrun
  | some s2 =>
    simp only [hpoll] at hrun
    obtain ⟨f1, f2, f3, f4, f5, f6, f7, f8⟩ := pollReg_frame_cr hhw hpoll
    have hcr2 : ∀ i : Nat, i < 32 → i ≠ 24 → i ≠ 25 → s2.cr.testBit i = s.cr.testBit i := by
      intro i h32 hi24 hi25
      rw [f8 i h32 hi25]
      rw [show ({ s with cr := s.cr &&& cNot (1 <<< 24) } : Regs).cr
          = s.cr &&& cNot (1 <<< 24) from rfl]
      rw [testBit_clearBit _ _ _ (by norm_num)]
      simp [h32, hi24]
    have hVN : ¬ (N < 50 ∨ 432 < N) := by
      by_contra hN
      rcases Classical.em (Src = HSI) with hS | hS
      · rw [if_pos hS, pllAfterSrc_invalidN hN] at hrun
        simp at hrun
      · rcases Classical.em (Src = HSE) with hS2 | hS2
        · rw [if_neg hS, if_pos hS2, pllAfterSrc_invalidN hN] at hrun
          simp at hrun
        · rw [if_neg hS, if_neg hS2] at hrun
          simp at hrun
    have hVD : ¬ (D < 2 ∨ 63 < D) := by
      by_contra hD
      rcases Classical.em (Src = HSI) with hS | hS
      · rw [if_pos hS, pllAfterSrc_invalidD hVN hD] at hrun
        simp at hrun
      · rcases Classical.em (Src = HSE) with hS2 | hS2
        · rw [if_neg hS, if_pos hS2, pllAfterSrc_invalidD hVN hD] at hrun
          simp at hrun
        · rw [if_neg hS, if_neg hS2] at hrun
          simp at hrun
    have hDm : D = 2 ∨ D = 4 ∨ D = 6 ∨ D = 8 := by
      by_contra hD
      rcases Classical.em (Src = HSI) with hS | hS
      · rw [if_pos hS,
          pllAfterSrc_defaultP (by omega) (by omega) (by omega) (by omega) hD] at hrun
        simp at hrun
      · rcases Classical.em (Src = HSE) with hS2 | hS2
        · rw [if_neg hS, if_pos hS2,
            pllAfterSrc_defaultP (by omega) (by omega) (by omega) (by omega) hD] at hrun
          simp at hrun
        · rw [if_neg hS, if_neg hS2] at hrun
          simp at hrun
    have main : ∀ x2 : Regs, x2.cr = s2.cr → x2.cfgr = s2.cfgr →
        x2.ahb1enr = s2.ahb1enr → x2.ahb2enr = s2.ahb2enr → x2.ahb3enr = s2.ahb3enr →
        x2.apb1enr = s2.apb1enr → x2.apb2enr = s2.apb2enr →
        (∀ i : Nat, i < 32 → i ≠ 22 → x2.pllcfgr.testBit i = s2.pllcfgr.testBit i) →
        pllAfterSrc hw fuel N D x2 = some (0, s') →
        s'.cr.testBit 24 = true ∧
        (∀ i : Nat, i < 32 → i ≠ 24 → i ≠ 25 → s'.cr.testBit i = s.cr.testBit i) ∧
        (∀ i : Nat, i < 32 → ¬ (i ≤ 5 ∨ (6 ≤ i ∧ i ≤ 14) ∨ i = 16 ∨ i = 17 ∨ i = 22) →
          s'.pllcfgr.testBit i = s.pllcfgr.testBit i) ∧
        s'.cfgr = s.cfgr ∧ s'.ahb1enr = s.ahb1enr ∧ s'.ahb2enr = s.ahb2enr ∧
        s'.ahb3enr = s.ahb3enr ∧ s'.apb1enr = s.apb1enr ∧ s'.apb2enr = s.apb2enr := by
      intro x2 g1 g2 g3 g4 g5 g6 g7 gp hx
      obtain ⟨s5, hEq, hc1, hc2, hc3, hc4, hc5, hc6, hc7, hbits⟩ :=
        @pllAfterSrc_valid hw fuel N D x2 (by omega) (by omega) hDm
      rw [hEq] at hx
      cases hpoll2 : pollReg hw (fun t => ((t.cr >>> 25) &&& 1) == 1) fuel
          { s5 with cr := (s5.cr ||| (1 <<< 24)) % m32 } with
      | none =>
        rw [hpoll2] at hx
        simp at hx
      | some s7 =>
        simp only [hpoll2, Option.some.injEq, Prod.mk.injEq] at hx
        obtain ⟨-, hs⟩ := hx
        subst hs
        obtain ⟨g1f, g2f, g3f, g4f, g5f, g6f, g7f, g8f⟩ := pollReg_frame_cr hhw hpoll2
        have e6cr : ({ s5 with cr := (s5.cr ||| (1 <<< 24)) % m32 } : Regs).cr
            = (s5.cr ||| (1 <<< 24)) % m32 := rfl
        refine ⟨?_, ?_, ?_, ?_, ?_, ?_, ?_, ?_, ?_⟩
        · rw [g8f 24 (by norm_num) (by norm_num), e6cr, testBit_setBit]
          simp
        · intro i h32 hi24 hi25
          rw [g8f i h32 hi25, e6cr, testBit_setBit]
          simp [h32, hi24]
          rw [hc1, g1]
          exact hcr2 i h32 hi24 hi25
        · intro i h32 hfield
          rw [g1f, show ({ s5 with cr := (s5.cr ||| (1 <<< 24)) % m32 } : Regs).pllcfgr
            = s5.pllcfgr from rfl]
          rw [hbits i]
          rw [if_neg (by omega), if_neg (by omega), if_neg (by omega), if_pos h32]
          rw [gp i h32 (by omega), f1]
        · rw [g2f, show ({ s5 with cr := (s5.cr ||| (1 <<< 24)) % m32 } : Regs).cfgr
            = s5.cfgr from rfl, hc2, g2, f2]
        · rw [g3f, show ({ s5 with cr := (s5.cr ||| (1 <<< 24)) % m32 } : Regs).ahb1enr
            = s5.ahb1enr from rfl, hc3, g3, f3]
        · rw [g4f, show ({ s5 with cr := (s5.cr ||| (1 <<< 24)) % m32 } : Regs).ahb2enr
            = s5.ahb2enr from rfl, hc4, g4, f4]
        · rw [g5f, show ({ s5 with cr := (s5.cr ||| (1 <<< 24)) % m32 } : Regs).ahb3enr
            = s5.ahb3enr from rfl, hc5, g5, f5]
        · rw [g6f, show ({ s5 with cr := (s5.cr ||| (1 <<< 24)) % m32 } : Regs).apb1enr
            = s5.apb1enr from rfl, hc6, g6, f6]
        · rw [g7f, show ({ s5 with cr := (s5.cr ||| (1 <<< 24)) % m32 } : Regs).apb2enr
            = s5.apb2enr from rfl, hc7, g7, f7]
    rcases Classical.em (Src = HSI) with hS | hS
    · rw [if_pos hS] at hrun
      refine main { s2 with pllcfgr := s2.pllcfgr &&& cNot (1 <<< 22) }
        rfl rfl rfl rfl rfl rfl rfl ?_ hrun
      intro i h32 hi22
      rw [show ({ s2 with pllcfgr := s2.pllcfgr &&& cNot (1 <<< 22) } : Regs).pllcfgr
          = s2.pllcfgr &&& cNot (1 <<< 22) from rfl]
      rw [testBit_clearBit _ _ _ (by norm_num)]
      simp [h32, hi22]
    · rcases Classical.em (Src = HSE) with hS2 | hS2
      · rw [if_neg hS, if_pos hS2] at hrun
        refine main { s2 with pllcfgr := (s2.pllcfgr ||| (1 <<< 22)) % m32 }
          rfl rfl rfl rfl rfl rfl rfl ?_ hrun
        intro i h32 hi22
        rw [show ({ s2 with pllcfgr := (s2.pllcfgr ||| (1 <<< 22)) % m32 } : Regs).pllcfgr
            = (s2.pllcfgr ||| (1 <<< 22)) % m32 from rfl]
        rw [testBit_setBit]
        simp [h32, hi22]
      · rw [if_neg hS, if_neg hS2] at hrun
        simp at hrun


/-- Claim C1 (amended): RCC_SetClkStatus sets (ON) or clears (OFF) the
enable bit at position Clk_Type of CR, but then busy-polls until the
ready bit at position Clk_Type + 1 is SET — for both ON and OFF
requests; whenever it returns, the return value is 0, the ready bit
reads 1, and the enable bit holds the requested value. -/
theorem setclk_sets_bit_and_polls_ready_set
    (hw : Regs → Regs) (fuel Clk_Type : Nat) (Status : STATUS) (s : Regs)
    (r : Nat) (s' : Regs)
    (hclk : Clk_Type + 1 < 32)
    (hhw : HWCrOnly (Clk_Type + 1) hw)
    (hrun : RCC_SetClkStatus hw fuel Clk_Type Status s = some (r, s')) :
    r = 0 ∧ s'.cr.testBit (Clk_Type + 1) = true ∧
    s'.cr.testBit Clk_Type = (if Status = STATUS.ON then true else false) := by
  rw [RCC_SetClkStatus] at hrun
  by_cases hst : Status = STATUS.ON
  · rw [if_pos hst] at hrun
    rw [if_pos hst]
    cases hpoll : pollReg hw (fun t => ((t.cr >>> (Clk_Type + 1)) &&& 1) == 1) fuel
        { s with cr := (s.cr ||| (1 <<< Clk_Type)) % m32 } with
    | none =>
      rw [hpoll] at hrun
      simp at hrun
    | some s2 =>
      simp only [hpoll, Option.some.injEq, Prod.mk.injEq] at hrun
      obtain ⟨hr, hs⟩ := hrun
      subst hs
      have hcond := pollReg_cond hpoll
      rw [beq1_testBit] at hcond
      obtain ⟨-, -, -, -, -, -, -, e8⟩ := pollReg_frame_cr hhw hpoll
      refine ⟨hr.symm, hcond, ?_⟩
      rw [e8 Clk_Type (by omega) (by omega)]
      rw [show ({ s with cr := (s.cr ||| (1 <<< Clk_Type)) % m32 } : Regs).cr
          = (s.cr ||| (1 <<< Clk_Type)) % m32 from rfl]
      rw [testBit_setBit]
      simp [show Clk_Type < 32 by omega]
  · rw [if_neg hst] at hrun
    rw [if_neg hst]
    cases hpoll : pollReg hw (fun t => ((t.cr >>> (Clk_Type + 1)) &&& 1) == 1) fuel
        { s with cr := s.cr &&& cNot ((1 <<< Clk_Type) % m32) } with
    | none =>
      rw [hpoll] at hrun
      simp at hrun
    | some s2 =>
      simp only [hpoll, Option.some.injEq, Prod.mk.injEq] at hrun
      obtain ⟨hr, hs⟩ := hrun
      subst hs
      have hcond := pollReg_cond hpoll
      rw [beq1_testBit] at hcond
      obtain ⟨-, -, -, -, -, -, -, e8⟩ := pollReg_frame_cr hhw hpoll
      refine ⟨hr.symm, hcond, ?_⟩
      rw [e8 Clk_Type (by omega) (by omega)]
      rw [show ({ s with cr := s.cr &&& cNot ((1 <<< Clk_Type) % m32) } : Regs).cr
          = s.cr &&& cNot ((1 <<< Clk_Type) % m32) from rfl]
      rw [testBit_clearBit' _ _ _ (by omega)]
      simp


lemma sysConf_lt (x : Nat) : sysConf x < 4 :=
  lt_of_le_of_lt Nat.and_le_right (by norm_num)

lemma sysSel_lt (x : Nat) : sysSel x < 4 :=
  lt_of_le_of_lt Nat.and_le_right (by norm_num)

lemma testBit_sysConf (x j : Nat) :
    (sysConf x).testBit j = (decide (j < 2) && x.testBit (2 + j)) := by
  rw [sysConf, Nat.testBit_land, Nat.testBit_shiftRight, t3]
  cases h : x.testBit (2 + j) <;> by_cases hj : j < 2 <;> simp [h, hj]

lemma testBit_sysSel (x j : Nat) :
    (sysSel x).testBit j = (decide (j < 2) && x.testBit j) := by
  rw [sysSel, Nat.testBit_land, t3]
  cases h : x.testBit j <;> by_cases hj : j < 2 <;> simp [h, hj]

lemma sysConf_write (x v : Nat) (hv : v < 4) :
    sysConf (((x &&& cNot 3) ||| v) % m32) = sysConf x := by
  apply sysConf_eq (sysConf_lt x)
  intro j hj
  rw [sysWrite_bits _ _ _ hv, if_neg (by omega), if_pos (by omega), testBit_sysConf]
  simp [hj]

lemma sysSel_write (x v : Nat) (hv : v < 4) :
    sysSel (((x &&& cNot 3) ||| v) % m32) = v := by
  apply sysSel_eq hv
  intro j hj
  rw [sysWrite_bits _ _ _ hv, if_pos hj]

lemma sysConf_hwSys (t : Regs) : sysConf (hwSys t).cfgr = sysSel t.cfgr := by
  apply sysConf_eq (sysSel_lt t.cfgr)
  intro j hj
  rw [show (hwSys t).cfgr = ((t.cfgr &&& cNot 12) ||| ((t.cfgr &&& 3) <<< 2)) % m32 from rfl]
  rw [hwSys_cfgr_bits, if_pos (by omega), testBit_sysSel]
  simp [hj, show 2 + j - 2 = j by omega]

lemma sysSel_hwSys (t : Regs) : sysSel (hwSys t).cfgr = sysSel t.cfgr := by
  apply sysSel_eq (sysSel_lt t.cfgr)
  intro j hj
  rw [show (hwSys t).cfgr = ((t.cfgr &&& cNot 12) ||| ((t.cfgr &&& 3) <<< 2)) % m32 from rfl]
  rw [hwSys_cfgr_bits, if_neg (by omega), if_pos (by omega), testBit_sysSel]
  simp [hj]

lemma cond_sys_true {X v : Nat} (h : sysConf X = v) :
    (((X >>> 2) &&& 3) == v) = true := by
  rw [show ((X >>> 2) &&& 3) = sysConf X from rfl, h]
  exact beq_self_eq_true v

lemma cond_sys_false {X v : Nat} (h : sysConf X ≠ v) :
    (((X >>> 2) &&& 3) == v) = false := by
  rw [show ((X >>> 2) &&& 3) = sysConf X from rfl]
  exact beq_eq_false_iff_ne.mpr h

lemma RCC_SetSysClk_eq (hw : Regs → Regs) (fuel v : Nat) (s : Regs)
    (hv : ¬ v > SYSPLLP) :
    RCC_SetSysClk hw fuel v s =
      (match pollReg hw (fun t => ((t.cfgr >>> 2) &&& 3) == v) fuel
          { s with cfgr := ((s.cfgr &&& cNot 3) ||| v) % m32 } with
       | none => none
       | some s3 => some (0, s3)) := by
  rw [RCC_SetSysClk, if_neg hv]

/-- Claim C5: RCC_SetSysClk rejects any request above 3 with failure and
an unchanged register file; for requests 0–3 (boundary included) it
writes exactly the request into CFGR bits 1:0, leaves every other bit it
owns unchanged, busy-polls until the confirmation field CFGR bits 3:2
equals the request, and returns success (shown under the responsive
switch-status hardware model). -/
theorem set_sysclk_guard_write_poll
    (hw : Regs → Regs) (fuel v : Nat) (s : Regs) (hf : 2 ≤ fuel) :
    (3 < v → RCC_SetSysClk hw fuel v s = some (1, s)) ∧
    (v ≤ 3 → ∃ s' : Regs, RCC_SetSysClk hwSys fuel v s = some (0, s') ∧
      sysSel s'.cfgr = v ∧ sysConf s'.cfgr = v ∧
      (∀ i : Nat, i < 32 → i ≠ 0 → i ≠ 1 → i ≠ 2 → i ≠ 3 →
        s'.cfgr.testBit i = s.cfgr.testBit i) ∧
      s'.cr = s.cr ∧ s'.pllcfgr = s.pllcfgr ∧ s'.ahb1enr = s.ahb1enr ∧
      s'.ahb2enr = s.ahb2enr ∧ s'.ahb3enr = s.ahb3enr ∧ s'.apb1enr = s.apb1enr ∧
      s'.apb2enr = s.apb2enr) := by
  constructor
  · intro hv
    rw [RCC_SetSysClk, if_pos (by simp [SYSPLLP]; omega)]
  · intro hv
    have hv4 : v < 4 := by omega
    rw [RCC_SetSysClk_eq hwSys fuel v s (by simp [SYSPLLP]; omega)]
    have hW : ({ s with cfgr := ((s.cfgr &&& cNot 3) ||| v) % m32 } : Regs).cfgr
        = ((s.cfgr &&& cNot 3) ||| v) % m32 := rfl
    have hframe : ∀ i : Nat, i < 32 → i ≠ 0 → i ≠ 1 → i ≠ 2 → i ≠ 3 →
        (((s.cfgr &&& cNot 3) ||| v) % m32).testBit i = s.cfgr.testBit i := by
      intro i h32 h0 h1 h2 h3
      rw [sysWrite_bits _ _ _ hv4, if_neg (by omega), if_pos h32]
    by_cases hc : sysConf s.cfgr = v
    · rw [pollReg_exit_now (cond_sys_true (by rw [hW, sysConf_write _ _ hv4]; exact hc))
        (by omega)]
      refine ⟨_, rfl, ?_, ?_, hframe, rfl, rfl, rfl, rfl, rfl, rfl, rfl⟩
      · rw [hW, sysSel_write _ _ hv4]
      · rw [hW, sysConf_write _ _ hv4]
        exact hc
    · rw [pollReg_exit_next (cond_sys_false (by rw [hW, sysConf_write _ _ hv4]; exact hc))
        (cond_sys_true (by rw [sysConf_hwSys, hW, sysSel_write _ _ hv4])) hf]
      refine ⟨_, rfl, ?_, ?_, ?_, rfl, rfl, rfl, rfl, rfl, rfl, rfl⟩
      · rw [sysSel_hwSys, hW, sysSel_write _ _ hv4]
      · rw [sysConf_hwSys, hW, sysSel_write _ _ hv4]
      · intro i h32 h0 h1 h2 h3
        obtain ⟨-, -, -, -, -, -, -, e8⟩ :=
          hwSys_sws { s with cfgr := ((s.cfgr &&& cNot 3) ||| v) % m32 }
        rw [e8 i h32 h2 h3, hW]
        exact hframe i h32 h0 h1 h2 h3


lemma RCC_SetClkStatus_eq (hw : Regs → Regs) (fuel Clk_Type : Nat)
    (Status : STATUS) (s : Regs) :
    RCC_SetClkStatus hw fuel Clk_Type Status s =
      (match pollReg hw (fun t => ((t.cr >>> (Clk_Type + 1)) &&& 1) == 1) fuel
          (if Status = STATUS.ON then { s with cr := (s.cr ||| (1 <<< Clk_Type)) % m32 }
           else { s with cr := s.cr &&& cNot ((1 <<< Clk_Type) % m32) }) with
       | none => none
       | some s2 => some (0, s2)) := by
  rw [RCC_SetClkStatus]

lemma RCC_PLL_Config_eq (hw : Regs → Regs) (fuel N D Src : Nat) (s : Regs) :
    RCC_PLL_Config hw fuel N D Src s =
      (match pollReg hw (fun t => ((t.cr >>> 25) &&& 1) == 0) fuel
          { s with cr := s.cr &&& cNot (1 <<< 24) } with
       | none => none
       | some s2 =>
         if Src = HSI then
           pllAfterSrc hw fuel N D
             { s2 with pllcfgr := s2.pllcfgr &&& cNot (1 <<< 22) }
         else if Src = HSE then
           pllAfterSrc hw fuel N D
             { s2 with pllcfgr := (s2.pllcfgr ||| (1 <<< 22)) % m32 }
         else
           some (1, s2)) := by
  rw [RCC_PLL_Config]

/-- Claim C7: no polling loop in the driver is bounded — under a
hardware model (the identity oracle) in which the awaited status bit
never changes, RCC_SetClkStatus, the PLL-enable wait of RCC_PLL_Config
and the switch-confirmation wait of RCC_SetSysClk never return, for
every fuel bound, and no timeout error is ever reported. -/
theorem polling_loops_unbounded
    (Clk_Type : Nat) (Status : STATUS) (v N D Src : Nat) (s : Regs)
    (hclk : Clk_Type + 1 < 32) (hready : s.cr.testBit (Clk_Type + 1) = false)
    (hpll25 : s.cr.testBit 25 = false)
    (hSrc : Src = HSI ∨ Src = HSE) (hN1 : 50 ≤ N) (hN2 : N ≤ 432)
    (hDm : D = 2 ∨ D = 4 ∨ D = 6 ∨ D = 8)
    (hv : v ≤ 3) (hsws : sysConf s.cfgr ≠ v) :
    (∀ fuel : Nat, RCC_SetClkStatus id fuel Clk_Type Status s = none) ∧
    (∀ fuel : Nat, RCC_PLL_Config id fuel N D Src s = none) ∧
    (∀ fuel : Nat, RCC_SetSysClk id fuel v s = none) := by
  refine ⟨?_, ?_, ?_⟩
  · intro fuel
    rw [RCC_SetClkStatus_eq]
    by_cases hst : Status = STATUS.ON
    · rw [if_pos hst]
      rw [pollReg_id_none ?_ fuel]
      rw [beq1_testBit]
      rw [show ({ s with cr := (s.cr ||| (1 <<< Clk_Type)) % m32 } : Regs).cr
          = (s.cr ||| (1 <<< Clk_Type)) % m32 from rfl]
      rw [testBit_setBit]
      simp [show Clk_Type + 1 ≠ Clk_Type by omega, hready]
    · rw [if_neg hst]
      rw [pollReg_id_none ?_ fuel]
      rw [beq1_testBit]
      rw [show ({ s with cr := s.cr &&& cNot ((1 <<< Clk_Type) % m32) } : Regs).cr
          = s.cr &&& cNot ((1 <<< Clk_Type) % m32) from rfl]
      rw [testBit_clearBit' _ _ _ (by omega)]
      simp [hready]
  · intro fuel
    rw [RCC_PLL_Config_eq]
    have hcond1 : (((({ s with cr := s.cr &&& cNot (1 <<< 24) } : Regs).cr >>> 25) &&& 1) == 0)
        = true := by
      rw [beq0_testBit]
      rw [show ({ s with cr := s.cr &&& cNot (1 <<< 24) } : Regs).cr
          = s.cr &&& cNot (1 <<< 24) from rfl]
      rw [testBit_clearBit _ _ _ (by norm_num)]
      simp [hpll25]
    cases fuel with
    | zero => rfl
    | succ f =>
      rw [pollReg_exit_now hcond1 (by omega)]
      have key : ∀ x2 : Regs, x2.cr = ({ s with cr := s.cr &&& cNot (1 <<< 24) } : Regs).cr →
          pllAfterSrc id (f + 1) N D x2 = none := by
        intro x2 hx2
        obtain ⟨s5, hEq, hc1, hc2, hc3, hc4, hc5, hc6, hc7, hbits⟩ :=
          @pllAfterSrc_valid id (f + 1) N D x2 hN1 hN2 hDm
        rw [hEq]
        rw [pollReg_id_none ?_ (f + 1)]
        rw [beq1_testBit]
        rw [show ({ s5 with cr := (s5.cr ||| (1 <<< 24)) % m32 } : Regs).cr
            = (s5.cr ||| (1 <<< 24)) % m32 from rfl]
        rw [testBit_setBit]
        rw [hc1, hx2]
        rw [show ({ s with cr := s.cr &&& cNot (1 <<< 24) } : Regs).cr
            = s.cr &&& cNot (1 <<< 24) from rfl]
        rw [testBit_clearBit _ _ _ (by norm_num)]
        simp [hpll25]
      rcases hSrc with hS | hS <;> subst hS
      · exact key _ rfl
      · exact key _ rfl
  · intro fuel
    rw [RCC_SetSysClk_eq _ _ _ _ (by simp [SYSPLLP]; omega)]
    rw [pollReg_id_none ?_ fuel]
    apply cond_sys_false
    rw [show ({ s with cfgr := ((s.cfgr &&& cNot 3) ||| v) % m32 } : Regs).cfgr
        = ((s.cfgr &&& cNot 3) ||| v) % m32 from rfl]
    rw [sysConf_write _ _ (by omega)]
    exact hsws


lemma enr_set_spec (x n : Nat) (hn : n ≤ 31) :
    ((x ||| (1 <<< n)) % m32).testBit n = true ∧
    ∀ i : Nat, i < 32 → i ≠ n → ((x ||| (1 <<< n)) % m32).testBit i = x.testBit i := by
  constructor
  · rw [testBit_setBit]
    simp [show n < 32 by omega]
  · intro i h32 hi
    rw [testBit_setBit]
    simp [h32, hi]

lemma enr_clear_spec (x n : Nat) (hn : n ≤ 31) :
    (x &&& cNot ((1 <<< n) % m32)).testBit n = false ∧
    ∀ i : Nat, i < 32 → i ≠ n → (x &&& cNot ((1 <<< n) % m32)).testBit i = x.testBit i := by
  constructor
  · rw [testBit_clearBit' _ _ _ (by omega)]
    simp
  · intro i h32 hi
    rw [testBit_clearBit' _ _ _ (by omega)]
    simp [h32, hi]

/-- Claim C6: for each bus domain enable/disable function and every bit
position 0–31, enabling sets exactly that bit and disabling clears
exactly that bit of that domain register, leaving every other bit and
every other register unchanged, and returns 0; for any position above 31
the function returns 1 and writes nothing. -/
theorem bus_gating_exact_bit (n : Nat) (s : Regs) :
    (n ≤ 31 →
      ((RCC_AHB1_EnableClk n s).1 = 0 ∧
        (RCC_AHB1_EnableClk n s).2.ahb1enr.testBit n = true ∧
        (∀ i : Nat, i < 32 → i ≠ n →
          (RCC_AHB1_EnableClk n s).2.ahb1enr.testBit i = s.ahb1enr.testBit i) ∧
        (RCC_AHB1_EnableClk n s).2 = { s with ahb1enr := (RCC_AHB1_EnableClk n s).2.ahb1enr }) ∧
      ((RCC_AHB1_DisableClk n s).1 = 0 ∧
        (RCC_AHB1_DisableClk n s).2.ahb1enr.testBit n = false ∧
        (∀ i : Nat, i < 32 → i ≠ n →
          (RCC_AHB1_DisableClk n s).2.ahb1enr.testBit i = s.ahb1enr.testBit i) ∧
        (RCC_AHB1_DisableClk n s).2 = { s with ahb1enr := (RCC_AHB1_DisableClk n s).2.ahb1enr }) ∧
      ((RCC_AHB2_EnableClk n s).1 = 0 ∧
        (RCC_AHB2_EnableClk n s).2.ahb2enr.testBit n = true ∧
        (∀ i : Nat, i < 32 → i ≠ n →
          (RCC_AHB2_EnableClk n s).2.ahb2enr.testBit i = s.ahb2enr.testBit i) ∧
        (RCC_AHB2_EnableClk n s).2 = { s with ahb2enr := (RCC_AHB2_EnableClk n s).2.ahb2enr }) ∧
      ((RCC_AHB2_DisableClk n s).1 = 0 ∧
        (RCC_AHB2_DisableClk n s).2.ahb2enr.testBit n = false ∧
        (∀ i : Nat, i < 32 → i ≠ n →
          (RCC_AHB2_DisableClk n s).2.ahb2enr.testBit i = s.ahb2enr.testBit i) ∧
        (RCC_AHB2_DisableClk n s).2 = { s with ahb2enr := (RCC_AHB2_DisableClk n s).2.ahb2enr }) ∧
      ((RCC_AHB3_EnableClk n s).1 = 0 ∧
        (RCC_AHB3_EnableClk n s).2.ahb3enr.testBit n = true ∧
        (∀ i : Nat, i < 32 → i ≠ n →
          (RCC_AHB3_EnableClk n s).2.ahb3enr.testBit i = s.ahb3enr.testBit i) ∧
        (RCC_AHB3_EnableClk n s).2 = { s with ahb3enr := (RCC_AHB3_EnableClk n s).2.ahb3enr }) ∧
      ((RCC_AHB3_DisableClk n s).1 = 0 ∧
        (RCC_AHB3_DisableClk n s).2.ahb3enr.testBit n = false ∧
        (∀ i : Nat, i < 32 → i ≠ n →
          (RCC_AHB3_DisableClk n s).2.ahb3enr.testBit i = s.ahb3enr.testBit i) ∧
        (RCC_AHB3_DisableClk n s).2 = { s with ahb3enr := (RCC_AHB3_DisableClk n s).2.ahb3enr }) ∧
      ((RCC_APB1_EnableClk n s).1 = 0 ∧
        (RCC_APB1_EnableClk n s).2.apb1enr.testBit n = true ∧
        (∀ i : Nat, i < 32 → i ≠ n →
          (RCC_APB1_EnableClk n s).2.apb1enr.testBit i = s.apb1enr.testBit i) ∧
        (RCC_APB1_EnableClk n s).2 = { s with apb1enr := (RCC_APB1_EnableClk n s).2.apb1enr }) ∧
      ((RCC_APB1_DisableClk n s).1 = 0 ∧
        (RCC_APB1_DisableClk n s).2.apb1enr.testBit n = false ∧
        (∀ i : Nat, i < 32 → i ≠ n →
          (RCC_APB1_DisableClk n s).2.apb1enr.testBit i = s.apb1enr.testBit i) ∧
        (RCC_APB1_DisableClk n s).2 = { s with apb1enr := (RCC_APB1_DisableClk n s).2.apb1enr }) ∧
      ((RCC_APB2_EnableClk n s).1 = 0 ∧
        (RCC_APB2_EnableClk n s).2.apb2enr.testBit n = true ∧
        (∀ i : Nat, i < 32 → i ≠ n →
          (RCC_APB2_EnableClk n s).2.apb2enr.testBit i = s.apb2enr.testBit i) ∧
        (RCC_APB2_EnableClk n s).2 = { s with apb2enr := (RCC_APB2_EnableClk n s).2.apb2enr }) ∧
      ((RCC_APB2_DisableClk n s).1 = 0 ∧
        (RCC_APB2_DisableClk n s).2.apb2enr.testBit n = false ∧
        (∀ i : Nat, i < 32 → i ≠ n →
          (RCC_APB2_DisableClk n s).2.apb2enr.testBit i = s.apb2enr.testBit i) ∧
        (RCC_APB2_DisableClk n s).2 = { s with apb2enr := (RCC_APB2_DisableClk n s).2.apb2enr })) ∧
    (31 < n →
      RCC_AHB1_EnableClk n s = (1, s) ∧
      RCC_AHB1_DisableClk n s = (1, s) ∧
      RCC_AHB2_EnableClk n s = (1, s) ∧
      RCC_AHB2_DisableClk n s = (1, s) ∧
      RCC_AHB3_EnableClk n s = (1, s) ∧
      RCC_AHB3_DisableClk n s = (1, s) ∧
      RCC_APB1_EnableClk n s = (1, s) ∧
      RCC_APB1_DisableClk n s = (1, s) ∧
      RCC_APB2_EnableClk n s = (1, s) ∧
      RCC_APB2_DisableClk n s = (1, s)) := by
  constructor
  · intro hn
    refine ⟨?h1, ?h2, ?h3, ?h4, ?h5, ?h6, ?h7, ?h8, ?h9, ?h10⟩
    case h1 =>
      have e : RCC_AHB1_EnableClk n s = (0, { s with ahb1enr := (s.ahb1enr ||| (1 <<< n)) % m32 }) := by
        rw [RCC_AHB1_EnableClk, if_neg (by omega)]
      refine ⟨by rw [e], ?_, ?_, by rw [e]⟩
      · rw [e]
        exact (enr_set_spec s.ahb1enr n hn).1
      · intro i h32 hi
        rw [e]
        exact (enr_set_spec s.ahb1enr n hn).2 i h32 hi
    case h2 =>
      have e : RCC_AHB1_DisableClk n s = (0, { s with ahb1enr := s.ahb1enr &&& cNot ((1 <<< n) % m32) }) := by
        rw [RCC_AHB1_DisableClk, if_neg (by omega)]
      refine ⟨by rw [e], ?_, ?_, by rw [e]⟩
      · rw [e]
        exact (enr_clear_spec s.ahb1enr n hn).1
      · intro i h32 hi
        rw [e]
        exact (enr_clear_spec s.ahb1enr n hn).2 i h32 hi
    case h3 =>
      have e : RCC_AHB2_EnableClk n s = (0, { s with ahb2enr := (s.ahb2enr ||| (1 <<< n)) % m32 }) := by
        rw [RCC_AHB2_EnableClk, if_neg (by omega)]
      refine ⟨by rw [e], ?_, ?_, by rw [e]⟩
      · rw [e]
        exact (enr_set_spec s.ahb2enr n hn).1
      · intro i h32 hi
        rw [e]
        exact (enr_set_spec s.ahb2enr n hn).2 i h32 hi
    case h4 =>
      have e : RCC_AHB2_DisableClk n s = (0, { s with ahb2enr := s.ahb2enr &&& cNot ((1 <<< n) % m32) }) := by
        rw [RCC_AHB2_DisableClk, if_neg (by omega)]
      refine ⟨by rw [e], ?_, ?_, by rw [e]⟩
      · rw [e]
        exact (enr_clear_spec s.ahb2enr n hn).1
      · intro i h32 hi
        rw [e]
        exact (enr_clear_spec s.ahb2enr n hn).2 i h32 hi
    case h5 =>
      have e : RCC_AHB3_EnableClk n s = (0, { s with ahb3enr := (s.ahb3enr ||| (1 <<< n)) % m32 }) := by
        rw [RCC_AHB3_EnableClk, if_neg (by omega)]
      refine ⟨by rw [e], ?_, ?_, by rw [e]⟩
      · rw [e]
        exact (enr_set_spec s.ahb3enr n hn).1
      · intro i h32 hi
        rw [e]
        exact (enr_set_spec s.ahb3enr n hn).2 i h32 hi
    case h6 =>
      have e : RCC_AHB3_DisableClk n s = (0, { s with ahb3enr := s.ahb3enr &&& cNot ((1 <<< n) % m32) }) := by
        rw [RCC_AHB3_DisableClk, if_neg (by omega)]
      refine ⟨by rw [e], ?_, ?_, by rw [e]⟩
      · rw [e]
        exact (enr_clear_spec s.ahb3enr n hn).1
      · intro i h32 hi
        rw [e]
        exact (enr_clear_spec s.ahb3enr n hn).2 i h32 hi
    case h7 =>
      have e : RCC_APB1_EnableClk n s = (0, { s with apb1enr := (s.apb1enr ||| (1 <<< n)) % m32 }) := by
        rw [RCC_APB1_EnableClk, if_neg (by omega)]
      refine ⟨by rw [e], ?_, ?_, by rw [e]⟩
      · rw [e]
        exact (enr_set_spec s.apb1enr n hn).1
      · intro i h32 hi
        rw [e]
        exact (enr_set_spec s.apb1enr n hn).2 i h32 hi
    case h8 =>
      have e : RCC_APB1_DisableClk n s = (0, { s with apb1enr := s.apb1enr &&& cNot ((1 <<< n) % m32) }) := by
        rw [RCC_APB1_DisableClk, if_neg (by omega)]
      refine ⟨by rw [e], ?_, ?_, by rw [e]⟩
      · rw [e]
        exact (enr_clear_spec s.apb1enr n hn).1
      · intro i h32 hi
        rw [e]
        exact (enr_clear_spec s.apb1enr n hn).2 i h32 hi
    case h9 =>
      have e : RCC_APB2_EnableClk n s = (0, { s with apb2enr := (s.apb2enr ||| (1 <<< n)) % m32 }) := by
        rw [RCC_APB2_EnableClk, if_neg (by omega)]
      refine ⟨by rw [e], ?_, ?_, by rw [e]⟩
      · rw [e]
        exact (enr_set_spec s.apb2enr n hn).1
      · intro i h32 hi
        rw [e]
        exact (enr_set_spec s.apb2enr n hn).2 i h32 hi
    case h10 =>
      have e : RCC_APB2_DisableClk n s = (0, { s with apb2enr := s.apb2enr &&& cNot ((1 <<< n) % m32) }) := by
        rw [RCC_APB2_DisableClk, if_neg (by omega)]
      refine ⟨by rw [e], ?_, ?_, by rw [e]⟩
      · rw [e]
        exact (enr_clear_spec s.apb2enr n hn).1
      · intro i h32 hi
        rw [e]
        exact (enr_clear_spec s.apb2enr n hn).2 i h32 hi
  · intro hn
    refine ⟨?_, ?_, ?_, ?_, ?_, ?_, ?_, ?_, ?_, ?_⟩
    · rw [RCC_AHB1_EnableClk, if_pos (by omega)]
    · rw [RCC_AHB1_DisableClk, if_pos (by omega)]
    · rw [RCC_AHB2_EnableClk, if_pos (by omega)]
    · rw [RCC_AHB2_DisableClk, if_pos (by omega)]
    · rw [RCC_AHB3_EnableClk, if_pos (by omega)]
    · rw [RCC_AHB3_DisableClk, if_pos (by omega)]
    · rw [RCC_APB1_EnableClk, if_pos (by omega)]
    · rw [RCC_APB1_DisableClk, if_pos (by omega)]
    · rw [RCC_APB2_EnableClk, if_pos (by omega)]
    · rw [RCC_APB2_DisableClk, if_pos (by omega)]


/-- Claim C8: RCC_HSE_Mode rejects any value other than the two
recognized states with failure indicator 1 and no register write; for
BYPASSED it sets exactly CR bit 18 and for NOT_BYPASSED it clears
exactly that bit, returning 0 in both cases. -/
theorem hse_mode_exact_bit18 (HSE_MODE : Nat) (s : Regs) :
    (HSE_MODE ≠ BYPASSED → HSE_MODE ≠ NOT_BYPASSED → RCC_HSE_Mode HSE_MODE s = (1, s)) ∧
    ((RCC_HSE_Mode BYPASSED s).1 = 0 ∧
      (RCC_HSE_Mode BYPASSED s).2.cr.testBit 18 = true ∧
      (∀ i : Nat, i < 32 → i ≠ 18 →
        (RCC_HSE_Mode BYPASSED s).2.cr.testBit i = s.cr.testBit i) ∧
      (RCC_HSE_Mode BYPASSED s).2 = { s with cr := (RCC_HSE_Mode BYPASSED s).2.cr }) ∧
    ((RCC_HSE_Mode NOT_BYPASSED s).1 = 0 ∧
      (RCC_HSE_Mode NOT_BYPASSED s).2.cr.testBit 18 = false ∧
      (∀ i : Nat, i < 32 → i ≠ 18 →
        (RCC_HSE_Mode NOT_BYPASSED s).2.cr.testBit i = s.cr.testBit i) ∧
      (RCC_HSE_Mode NOT_BYPASSED s).2 = { s with cr := (RCC_HSE_Mode NOT_BYPASSED s).2.cr }) := by
  have eB : RCC_HSE_Mode BYPASSED s = (0, { s with cr := (s.cr ||| (1 <<< 18)) % m32 }) := by
    rw [RCC_HSE_Mode, if_pos (by rfl)]
  have eN : RCC_HSE_Mode NOT_BYPASSED s = (0, { s with cr := s.cr &&& cNot (1 <<< 18) }) := by
    rw [RCC_HSE_Mode, if_neg (by decide), if_pos (by rfl)]
  refine ⟨?_, ⟨by rw [eB], ?_, ?_, by rw [eB]⟩, ⟨by rw [eN], ?_, ?_, by rw [eN]⟩⟩
  · intro h1 h2
    rw [RCC_HSE_Mode, if_neg ?_, if_neg ?_]
    · simp
      exact h2
    · simp
      exact h1
  · rw [eB]
    rw [show ((0, { s with cr := (s.cr ||| (1 <<< 18)) % m32 }) : Nat × Regs).2.cr
        = (s.cr ||| (1 <<< 18)) % m32 from rfl]
    rw [testBit_setBit]
    simp
  · intro i h32 hi
    rw [eB]
    rw [show ((0, { s with cr := (s.cr ||| (1 <<< 18)) % m32 }) : Nat × Regs).2.cr
        = (s.cr ||| (1 <<< 18)) % m32 from rfl]
    rw [testBit_setBit]
    simp [h32, hi]
  · rw [eN]
    rw [show ((0, { s with cr := s.cr &&& cNot (1 <<< 18) }) : Nat × Regs).2.cr
        = s.cr &&& cNot (1 <<< 18) from rfl]
    rw [testBit_clearBit _ _ _ (by norm_num)]
    simp
  · intro i h32 hi
    rw [eN]
    rw [show ((0, { s with cr := s.cr &&& cNot (1 <<< 18) }) : Nat × Regs).2.cr
        = s.cr &&& cNot (1 <<< 18) from rfl]
    rw [testBit_clearBit _ _ _ (by norm_num)]
    simp [h32, hi]

lemma or_bit_absorb {x k : Nat} (hk : k < 32) (hx : x < m32) (h : x.testBit k = true) :
    (x ||| (1 <<< k)) % m32 = x := by
  have e : x ||| (1 <<< k) = x := by
    apply Nat.eq_of_testBit_eq
    intro i
    rw [Nat.testBit_lor, testBit_shift_one]
    by_cases hik : i = k
    · subst hik
      simp [h]
    · simp [hik]
  rw [e, Nat.mod_eq_of_lt hx]

lemma or_twice (x k : Nat) :
    (((x ||| (1 <<< k)) % m32) ||| (1 <<< k)) % m32 = (x ||| (1 <<< k)) % m32 := by
  apply Nat.eq_of_testBit_eq
  intro i
  simp only [testBit_mod32, Nat.testBit_lor, testBit_shift_one]
  by_cases h32 : i < 32 <;> cases hx : x.testBit i <;> by_cases hik : i = k <;>
    simp [h32, hx, hik]

/-- Claim C9: enabling is idempotent — RCC_SetClkStatus with ON on a
source whose enable bit is already set (and ready) returns success with
the register file untouched, an already-set peripheral enable is a no-op
returning success, and running any bus enable twice equals running it
once. -/
theorem enable_idempotent
    (hw : Regs → Regs) (fuel Clk_Type n : Nat) (s : Regs)
    (hclk : Clk_Type + 1 < 32) (hcr : s.cr < m32)
    (hen : s.cr.testBit Clk_Type = true) (hrdy : s.cr.testBit (Clk_Type + 1) = true)
    (hf : 1 ≤ fuel) (hn : n ≤ 31) (hb : s.ahb1enr < m32)
    (hset : s.ahb1enr.testBit n = true) :
    RCC_SetClkStatus hw fuel Clk_Type STATUS.ON s = some (0, s) ∧
    RCC_AHB1_EnableClk n s = (0, s) ∧
    RCC_AHB1_EnableClk n (RCC_AHB1_EnableClk n s).2 = RCC_AHB1_EnableClk n s ∧
    RCC_AHB2_EnableClk n (RCC_AHB2_EnableClk n s).2 = RCC_AHB2_EnableClk n s ∧
    RCC_AHB3_EnableClk n (RCC_AHB3_EnableClk n s).2 = RCC_AHB3_EnableClk n s ∧
    RCC_APB1_EnableClk n (RCC_APB1_EnableClk n s).2 = RCC_APB1_EnableClk n s ∧
    RCC_APB2_EnableClk n (RCC_APB2_EnableClk n s).2 = RCC_APB2_EnableClk n s := by
  have habs : (s.cr ||| (1 <<< Clk_Type)) % m32 = s.cr :=
    or_bit_absorb (by omega) hcr hen
  refine ⟨?_, ?_, ?_, ?_, ?_, ?_, ?_⟩
  · rw [RCC_SetClkStatus_eq, if_pos rfl, habs]
    rw [pollReg_exit_now ?_ hf]
    rw [beq1_testBit]
    exact hrdy
  · rw [RCC_AHB1_EnableClk, if_neg (by omega)]
    rw [or_bit_absorb (by omega) hb hset]
  · have h1 : RCC_AHB1_EnableClk n s = (0, { s with ahb1enr := (s.ahb1enr ||| (1 <<< n)) % m32 }) := by
      rw [RCC_AHB1_EnableClk, if_neg (by omega)]
    have h2 : RCC_AHB1_EnableClk n { s with ahb1enr := (s.ahb1enr ||| (1 <<< n)) % m32 }
        = (0, { s with ahb1enr := (((s.ahb1enr ||| (1 <<< n)) % m32) ||| (1 <<< n)) % m32 }) := by
      rw [RCC_AHB1_EnableClk, if_neg (by omega)]
    rw [h1]
    rw [show ((0, { s with ahb1enr := (s.ahb1enr ||| (1 <<< n)) % m32 }) : Nat × Regs).2
        = { s with ahb1enr := (s.ahb1enr ||| (1 <<< n)) % m32 } from rfl]
    rw [h2, or_twice]
  · have h1 : RCC_AHB2_EnableClk n s = (0, { s with ahb2enr := (s.ahb2enr ||| (1 <<< n)) % m32 }) := by
      rw [RCC_AHB2_EnableClk, if_neg (by omega)]
    have h2 : RCC_AHB2_EnableClk n { s with ahb2enr := (s.ahb2enr ||| (1 <<< n)) % m32 }
        = (0, { s with ahb2enr := (((s.ahb2enr ||| (1 <<< n)) % m32) ||| (1 <<< n)) % m32 }) := by
      rw [RCC_AHB2_EnableClk, if_neg (by omega)]
    rw [h1]
    rw [show ((0, { s with ahb2enr := (s.ahb2enr ||| (1 <<< n)) % m32 }) : Nat × Regs).2
        = { s with ahb2enr := (s.ahb2enr ||| (1 <<< n)) % m32 } from rfl]
    rw [h2, or_twice]
  · have h1 : RCC_AHB3_EnableClk n s = (0, { s with ahb3enr := (s.ahb3enr ||| (1 <<< n)) % m32 }) := by
      rw [RCC_AHB3_EnableClk, if_neg (by omega)]
    have h2 : RCC_AHB3_EnableClk n { s with ahb3enr := (s.ahb3enr ||| (1 <<< n)) % m32 }
        = (0, { s with ahb3enr := (((s.ahb3enr ||| (1 <<< n)) % m32) ||| (1 <<< n)) % m32 }) := by
      rw [RCC_AHB3_EnableClk, if_neg (by omega)]
    rw [h1]
    rw [show ((0, { s with ahb3enr := (s.ahb3enr ||| (1 <<< n)) % m32 }) : Nat × Regs).2
        = { s with ahb3enr := (s.ahb3enr ||| (1 <<< n)) % m32 } from rfl]
    rw [h2, or_twice]
  · have h1 : RCC_APB1_EnableClk n s = (0, { s with apb1enr := (s.apb1enr ||| (1 <<< n)) % m32 }) := by
      rw [RCC_APB1_EnableClk, if_neg (by omega)]
    have h2 : RCC_APB1_EnableClk n { s with apb1enr := (s.apb1enr ||| (1 <<< n)) % m32 }
        = (0, { s with apb1enr := (((s.apb1enr ||| (1 <<< n)) % m32) ||| (1 <<< n)) % m32 }) := by
      rw [RCC_APB1_EnableClk, if_neg (by omega)]
    rw [h1]
    rw [show ((0, { s with apb1enr := (s.apb1enr ||| (1 <<< n)) % m32 }) : Nat × Regs).2
        = { s with apb1enr := (s.apb1enr ||| (1 <<< n)) % m32 } from rfl]
    rw [h2, or_twice]
  · have h1 : RCC_APB2_EnableClk n s = (0, { s with apb2enr := (s.apb2enr ||| (1 <<< n)) % m32 }) := by
      rw [RCC_APB2_EnableClk, if_neg (by omega)]
    have h2 : RCC_APB2_EnableClk n { s with apb2enr := (s.apb2enr ||| (1 <<< n)) % m32 }
        = (0, { s with apb2enr := (((s.apb2enr ||| (1 <<< n)) % m32) ||| (1 <<< n)) % m32 }) := by
      rw [RCC_APB2_EnableClk, if_neg (by omega)]
    rw [h1]
    rw [show ((0, { s with apb2enr := (s.apb2enr ||| (1 <<< n)) % m32 }) : Nat × Regs).2
        = { s with apb2enr := (s.apb2enr ||| (1 <<< n)) % m32 } from rfl]
    rw [h2, or_twice]


/-- Claim C1, counterexample: with HSI (bit 0) enabled and ready (CR =
3), an OFF request returns immediately with the ready bit (bit 1) still
SET — the loop does not await the requested (cleared) state; and from
CR = 1, where the ready bit already reads the requested cleared state,
the call does not return at all. -/
theorem setclk_off_polls_set_cex :
    RCC_SetClkStatus id 5 0 STATUS.OFF (regsCr 3) = some (0, regsCr 2) ∧
    (regsCr 2).cr.testBit 1 = true ∧
    RCC_SetClkStatus id 64 0 STATUS.OFF (regsCr 1) = none := by
  decide

/-- Claim C1, witness for the amended theorem at HSI, ON, responsive
ready-bit hardware. -/
theorem setclk_sets_bit_and_polls_ready_set_witness :
    (0 : Nat) = 0 ∧ (regsCr 3).cr.testBit (0 + 1) = true ∧
    (regsCr 3).cr.testBit 0 = (if STATUS.ON = STATUS.ON then true else false) :=
  setclk_sets_bit_and_polls_ready_set (hwReady 1) 3 0 STATUS.ON (regsCr 0) 0
    (regsCr 3) (by norm_num) (hwReady_crOnly 1) (by decide)

/-- Claim C2, counterexample: with the PLL enabled (CR bit 24) and the
source bit set (PLLCFGR bit 22), calling RCC_PLL_Config with N = 433
returns failure but has already cleared both bits — the register file
changes, refuting the zero-register-writes claim. -/
theorem pll_config_invalid_N_zero_writes_cex :
    RCC_PLL_Config hwPLL 4 433 2 HSI regsPllOn = some (1, regs0) ∧
    regs0 ≠ regsPllOn := by
  decide

/-- Claim C2, witness for the amended theorem at N = 433, HSI, from the
all-zero state. -/
theorem pll_config_invalid_N_witness :
    (1 : Nat) = 1 ∧ regs0.cr.testBit 24 = false ∧
    (∀ i : Nat, i < 32 → i ≠ 24 → i ≠ 25 → regs0.cr.testBit i = regs0.cr.testBit i) ∧
    (∀ i : Nat, i < 32 → i ≠ 22 → regs0.pllcfgr.testBit i = regs0.pllcfgr.testBit i) ∧
    pllSrc regs0.pllcfgr = (if HSI = HSI then 0 else 1) ∧
    regs0.cfgr = regs0.cfgr ∧ regs0.ahb1enr = regs0.ahb1enr ∧
    regs0.ahb2enr = regs0.ahb2enr ∧ regs0.ahb3enr = regs0.ahb3enr ∧
    regs0.apb1enr = regs0.apb1enr ∧ regs0.apb2enr = regs0.apb2enr :=
  pll_config_invalid_N_fails_after_prior_write hwPLL 2 433 2 HSI regs0 1 regs0
    hwPLL_crOnly (Or.inl rfl) (by omega) (by decide)

/-- Claim C3, witness at N = 50, division 2, HSI, from the all-zero
state. -/
theorem pll_config_valid_success_fields_witness :
    ∃ s' : Regs,
      RCC_PLL_Config hwPLL 2 50 2 HSI regs0 = some (0, s') ∧
      pllM s'.pllcfgr = 2 ∧ pllN s'.pllcfgr = 50 ∧ pllP s'.pllcfgr = pcode 2 ∧
      pllSrc s'.pllcfgr = (if HSI = HSI then 0 else 1) ∧
      s'.cr.testBit 24 = true ∧ s'.cr.testBit 25 = true :=
  pll_config_valid_success_fields 2 50 2 HSI regs0 (by norm_num) (Or.inl rfl)
    (by norm_num) (by norm_num) (Or.inl rfl)

/-- Claim C4, witness at division 5 (valid M range, invalid P selector),
N = 50, HSI, from the all-zero state. -/
theorem pll_config_invalid_division_nonatomic_witness :
    (1 : Nat) = 1 ∧ regsC4.cr.testBit 24 = false ∧
    pllM regsC4.pllcfgr = 5 ∧ pllN regsC4.pllcfgr = 50 :=
  pll_config_invalid_division_nonatomic hwPLL 2 50 5 HSI regs0 1 regsC4
    hwPLL_crOnly (Or.inl rfl) (by norm_num) (by norm_num) (by norm_num) (by norm_num)
    (by omega) (by decide)

/-- Claim C5, witness at request 1 from the all-zero state. -/
theorem set_sysclk_guard_write_poll_witness :
    (3 < 1 → RCC_SetSysClk id 2 1 regs0 = some (1, regs0)) ∧
    (1 ≤ 3 → ∃ s' : Regs, RCC_SetSysClk hwSys 2 1 regs0 = some (0, s') ∧
      sysSel s'.cfgr = 1 ∧ sysConf s'.cfgr = 1 ∧
      (∀ i : Nat, i < 32 → i ≠ 0 → i ≠ 1 → i ≠ 2 → i ≠ 3 →
        s'.cfgr.testBit i = regs0.cfgr.testBit i) ∧
      s'.cr = regs0.cr ∧ s'.pllcfgr = regs0.pllcfgr ∧ s'.ahb1enr = regs0.ahb1enr ∧
      s'.ahb2enr = regs0.ahb2enr ∧ s'.ahb3enr = regs0.ahb3enr ∧
      s'.apb1enr = regs0.apb1enr ∧ s'.apb2enr = regs0.apb2enr) :=
  set_sysclk_guard_write_poll id 2 1 regs0 (by norm_num)

/-- Claim C6, witness: enabling AHB1 position 5 succeeds and sets the
bit; position 40 is rejected with no write. -/
theorem bus_gating_exact_bit_witness :
    (RCC_AHB1_EnableClk 5 regs0).1 = 0 ∧
    (RCC_AHB1_EnableClk 5 regs0).2.ahb1enr.testBit 5 = true ∧
    RCC_APB2_DisableClk 40 regs0 = (1, regs0) := by
  refine ⟨((bus_gating_exact_bit 5 regs0).1 (by norm_num)).1.1,
    ((bus_gating_exact_bit 5 regs0).1 (by norm_num)).1.2.1, ?_⟩
  exact ((bus_gating_exact_bit 40 regs0).2 (by norm_num)).2.2.2.2.2.2.2.2.2

/-- Claim C7, witness: all three polls still return nothing after 100
iterations from the all-zero state under unresponsive hardware. -/
theorem polling_loops_unbounded_witness :
    RCC_SetClkStatus id 100 0 STATUS.ON regs0 = none ∧
    RCC_PLL_Config id 100 50 2 HSI regs0 = none ∧
    RCC_SetSysClk id 100 1 regs0 = none := by
  obtain ⟨a, b, c⟩ := polling_loops_unbounded 0 STATUS.ON 1 50 2 HSI regs0
    (by norm_num) (by decide) (by decide) (Or.inl rfl) (by norm_num) (by norm_num)
    (Or.inl rfl) (by norm_num) (by decide)
  exact ⟨a 100, b 100, c 100⟩

/-- Claim C8, witness: mode 7 is rejected with no write; the two
recognized modes set and clear CR bit 18. -/
theorem hse_mode_exact_bit18_witness :
    RCC_HSE_Mode 7 regs0 = (1, regs0) ∧
    (RCC_HSE_Mode BYPASSED regs0).1 = 0 ∧
    (RCC_HSE_Mode BYPASSED regs0).2.cr.testBit 18 = true ∧
    (RCC_HSE_Mode NOT_BYPASSED regs0).2.cr.testBit 18 = false := by
  obtain ⟨h1, h2, h3⟩ := hse_mode_exact_bit18 7 regs0
  exact ⟨h1 (by decide) (by decide), h2.1, h2.2.1, h3.2.1⟩

/-- Claim C9, witness: HSI already enabled and ready, AHB1 position 3
already gated on. -/
theorem enable_idempotent_witness :
    RCC_SetClkStatus id 1 0 STATUS.ON regsIdem = some (0, regsIdem) ∧
    RCC_AHB1_EnableClk 3 regsIdem = (0, regsIdem) ∧
    RCC_AHB1_EnableClk 3 (RCC_AHB1_EnableClk 3 regsIdem).2 = RCC_AHB1_EnableClk 3 regsIdem ∧
    RCC_AHB2_EnableClk 3 (RCC_AHB2_EnableClk 3 regsIdem).2 = RCC_AHB2_EnableClk 3 regsIdem ∧
    RCC_AHB3_EnableClk 3 (RCC_AHB3_EnableClk 3 regsIdem).2 = RCC_AHB3_EnableClk 3 regsIdem ∧
    RCC_APB1_EnableClk 3 (RCC_APB1_EnableClk 3 regsIdem).2 = RCC_APB1_EnableClk 3 regsIdem ∧
    RCC_APB2_EnableClk 3 (RCC_APB2_EnableClk 3 regsIdem).2 = RCC_APB2_EnableClk 3 regsIdem :=
  enable_idempotent id 1 0 3 regsIdem (by norm_num) (by decide) (by decide)
    (by decide) (by norm_num) (by norm_num) (by decide) (by decide)

/-- Claim C10, counterexample: a successful PLL configuration from a
state with the ready bit clear ends with CR bit 25 set — a bit outside
the claim's modified set changed, because the lock wait cannot complete
without the hardware raising it. -/
theorem pll_config_success_modifies_bit25_cex :
    RCC_PLL_Config hwPLL 4 50 2 HSI regs0 = some (0, regsC10) ∧
    regsC10.cr.testBit 25 = true ∧ regs0.cr.testBit 25 = false := by
  decide

/-- Claim C10, witness for the amended frame theorem on the concrete
successful run from the all-zero state. -/
theorem pll_config_success_frame_witness :
    regsC10.cr.testBit 24 = true ∧
    (∀ i : Nat, i < 32 → i ≠ 24 → i ≠ 25 →
      regsC10.cr.testBit i = regs0.cr.testBit i) ∧
    (∀ i : Nat, i < 32 → ¬ (i ≤ 5 ∨ (6 ≤ i ∧ i ≤ 14) ∨ i = 16 ∨ i = 17 ∨ i = 22) →
      regsC10.pllcfgr.testBit i = regs0.pllcfgr.testBit i) ∧
    regsC10.cfgr = regs0.cfgr ∧ regsC10.ahb1enr = regs0.ahb1enr ∧
    regsC10.ahb2enr = regs0.ahb2enr ∧ regsC10.ahb3enr = regs0.ahb3enr ∧
    regsC10.apb1enr = regs0.apb1enr ∧ regsC10.apb2enr = regs0.apb2enr :=
  pll_config_success_frame hwPLL 4 50 2 HSI regs0 regsC10 hwPLL_crOnly (by decide)

end RCC
